import Mathlib

/-!
Shallow embedding of the gbr Game Boy emulator core (Rust) in Lean 4.

Machine bytes and words are modelled as `Nat` with explicit `% 256` /
`% 65536` where the Rust code wraps; byte arrays are modelled as total
functions `Nat → Nat`.  Rust `panic!` / `unreachable!` branches that are
unreachable from the bus routing are modelled as identity / constant
results, and the reachable DMA panic is exposed as an explicit abort
predicate.  Each definition mirrors the function of the same name in the
source (`catridge.rs`, `timer.rs`, `joypad.rs`, `ppu.rs`, `mmu.rs`,
`cpu.rs`).
-/

namespace Gbr

/-- Pointwise update of a `Nat → Nat` array model (Rust `arr[k] = v`). -/
def upd (arr : Nat → Nat) (k v : Nat) : Nat → Nat :=
  fun i => if i = k then v else arr i

/-- `u8::from(b)` for a boolean. -/
def b2n (b : Bool) : Nat := if b then 1 else 0

/-- Sign extension of a byte to 16 bits (`val as i8 as u16` in Rust). -/
def sext8 (v : Nat) : Nat := if v < 0x80 then v else 0xff00 ||| v

@[simp] theorem upd_same (arr : Nat → Nat) (k v : Nat) : upd arr k v k = v := by
  simp [upd]

theorem upd_ne (arr : Nat → Nat) (k v i : Nat) (h : i ≠ k) : upd arr k v i = arr i := by
  simp [upd, h]

/-! ## Cartridge (`catridge.rs`) -/

/-- MBC1 cartridge state (`struct Catridge`); `rom` and `ram` are byte
arrays modelled as functions. -/
structure Catridge where
  rom : Nat → Nat
  ram : Nat → Nat
  mbc_type : Nat
  ram_enable : Bool
  bank_no_upper : Nat
  bank_no_lower : Nat
  num_rom_banks : Nat
  mode : Bool

namespace Catridge

/-- `Catridge::rom_bank_no`: effective ROM bank for 0x4000–0x7FFF reads. -/
def rom_bank_no (c : Catridge) : Nat :=
  let bank_no := if c.mode then c.bank_no_lower
                 else c.bank_no_upper <<< 5 ||| c.bank_no_lower
  let bank_no := if bank_no = 0 ∨ bank_no = 0x20 ∨ bank_no = 0x40 ∨ bank_no = 0x60
                 then bank_no + 1 else bank_no
  bank_no &&& (c.num_rom_banks - 1)

/-- `Catridge::ram_bank_no`. -/
def ram_bank_no (c : Catridge) : Nat :=
  if c.mode then c.bank_no_upper else 0

/-- `<Catridge as IODevice>::write`; the `unreachable!` arm is modelled
as the identity (the MMU never routes other addresses here). -/
def write (c : Catridge) (addr val : Nat) : Catridge :=
  if addr ≤ 0x1fff then { c with ram_enable := val &&& 0x0f = 0x0a }
  else if addr ≤ 0x3fff then { c with bank_no_lower := val &&& 0x1f }
  else if addr ≤ 0x5fff then { c with bank_no_upper := val &&& 0x03 }
  else if addr ≤ 0x7fff then { c with mode := val &&& 0x01 > 0 }
  else if 0xa000 ≤ addr ∧ addr ≤ 0xbfff then
    if !c.ram_enable then c
    else { c with ram := upd c.ram ((addr &&& 0x1fff) + 8 * 1024 * c.ram_bank_no) val }
  else c

/-- `<Catridge as IODevice>::read`; the `unreachable!` arm is modelled
as `0xff`. -/
def read (c : Catridge) (addr : Nat) : Nat :=
  if addr ≤ 0x3fff then c.rom addr
  else if addr ≤ 0x7fff then c.rom ((addr &&& 0x3fff) + 16 * 1024 * c.rom_bank_no)
  else if 0xa000 ≤ addr ∧ addr ≤ 0xbfff then
    if !c.ram_enable then 0xff
    else c.ram ((addr &&& 0x1fff) + 8 * 1024 * c.ram_bank_no)
  else 0xff

/-- `<Catridge as IODevice>::update` (a no-op). -/
def update (c : Catridge) (_tick : Nat) : Catridge := c

end Catridge

/-! ## Timer (`timer.rs`) -/

/-- Timer state (`struct Timer`). -/
structure Timer where
  div : Nat
  tima : Nat
  tma : Nat
  tac : Nat
  counter : Nat
  counter_prev : Nat

namespace Timer

/-- `<Timer as IODevice>::write`; the panicking arm is the identity. -/
def write (t : Timer) (addr val : Nat) : Timer :=
  if addr = 0xff04 then { t with counter := 0 }
  else if addr = 0xff05 then { t with tima := val }
  else if addr = 0xff06 then { t with tma := val }
  else if addr = 0xff07 then { t with tac := val &&& 0x7 }
  else t

/-- `<Timer as IODevice>::read`; the panicking arm yields `0xff`. -/
def read (t : Timer) (addr : Nat) : Nat :=
  if addr = 0xff04 then (t.counter >>> 8) &&& 0xff
  else if addr = 0xff05 then t.tima
  else if addr = 0xff06 then t.tma
  else if addr = 0xff07 then t.tac
  else 0xff

/-- `<Timer as IODevice>::update`: advances the internal counter and
returns the new state together with the IRQ flag the Rust function
returns.  `u16`/`u8` wrap-arounds are written as explicit `%`. -/
def update (t : Timer) (tick : Nat) : Timer × Bool :=
  let counter := (t.counter + tick) % 65536
  let t := { t with counter := counter }
  if t.tac &&& 4 > 0 then
    let divider : Nat :=
      if t.tac &&& 3 = 0 then 1024
      else if t.tac &&& 3 = 1 then 16
      else if t.tac &&& 3 = 2 then 64
      else 256
    let diff := (counter / divider + 65536 - t.counter_prev / divider) % 65536
    if diff > 0 then
      let t := { t with counter_prev := counter }
      let diff8 := diff % 256
      if t.tima + diff8 > 0xff then
        ({ t with tima := (t.tma + (diff8 + 255) % 256) % 256 }, true)
      else
        ({ t with tima := t.tima + diff8 }, false)
    else (t, false)
  else (t, false)

end Timer

/-! ## Joypad (`joypad.rs`) -/

/-- Joypad state (`struct Joypad`). -/
structure Joypad where
  joyp : Nat
  key_state : Nat
  irq : Bool

namespace Joypad

/-- `<Joypad as IODevice>::write`. -/
def write (j : Joypad) (addr val : Nat) : Joypad :=
  if addr = 0xff00 then { j with joyp := (j.joyp &&& 0xcf) ||| (val &&& 0x30) }
  else j

/-- `<Joypad as IODevice>::read`. -/
def read (j : Joypad) (addr : Nat) : Nat :=
  if addr = 0xff00 then
    if j.joyp &&& 0x10 = 0 then (j.joyp &&& 0xf0) ||| ((j.key_state >>> 4) &&& 0x0f)
    else if j.joyp &&& 0x20 = 0 then (j.joyp &&& 0xf0) ||| (j.key_state &&& 0x0f)
    else j.joyp
  else 0xff

/-- `<Joypad as IODevice>::update` (a no-op). -/
def update (j : Joypad) (_tick : Nat) : Joypad := j

end Joypad

/-! ## PPU (`ppu.rs`) -/

/-- Background priority of a rendered pixel (`enum BGPriority`). -/
inductive BGPriority where
  | Color0
  | Color123
  deriving DecidableEq

/-- PPU state (`struct PPU`); `vram`, `oam`, `frame_buffer`, `scanline`
and `bg_prio` are arrays modelled as functions. -/
structure PPU where
  vram : Nat → Nat
  oam : Nat → Nat
  lcdc : Nat
  stat : Nat
  scy : Nat
  scx : Nat
  ly : Nat
  lyc : Nat
  dma : Nat
  bgp : Nat
  obp0 : Nat
  obp1 : Nat
  wy : Nat
  wx : Nat
  irq_vblank : Bool
  irq_lcdc : Bool
  counter : Nat
  frame_buffer : Nat → Nat
  scanline : Nat → Nat
  bg_prio : Nat → BGPriority

namespace PPU

/-- `PPU::new`: the clean LCD-on reset state. -/
def new : PPU where
  vram := fun _ => 0
  oam := fun _ => 0
  lcdc := 0x80
  stat := 0x02
  scy := 0
  scx := 0
  ly := 0
  lyc := 0
  dma := 0
  bgp := 0
  obp0 := 0
  obp1 := 0
  wy := 0
  wx := 0
  irq_vblank := false
  irq_lcdc := false
  counter := 0
  frame_buffer := fun _ => 0
  scanline := fun _ => 0
  bg_prio := fun _ => BGPriority.Color0

/-- `PPU::fetch_tile`: fetch one row of tile data; 16-bit address
arithmetic wraps, the signed addressing mode sign-extends the tile
index. -/
def fetch_tile (p : PPU) (tile_no offset_y : Nat) (tile_data_sel : Bool) : Nat × Nat :=
  let tile_data_addr :=
    if tile_data_sel then tile_no <<< 4
    else (0x1000 + (sext8 tile_no <<< 4) % 65536) % 65536
  let row_addr := (tile_data_addr + (offset_y <<< 1)) % 65536
  (p.vram row_addr, p.vram ((row_addr + 1) % 65536))

/-- `PPU::fetch_bg_window_tile`. -/
def fetch_bg_window_tile (p : PPU) (tile_x tile_y offset_y tile_map_base : Nat) : Nat × Nat :=
  let tile_map_addr := tile_map_base ||| ((tile_x &&& 0x1f) + (tile_y <<< 5))
  let tile_no := p.vram tile_map_addr
  p.fetch_tile tile_no offset_y (p.lcdc &&& 0x10 > 0)

/-- `PPU::fetch_bg_tile`. -/
def fetch_bg_tile (p : PPU) (tile_x tile_y offset_y : Nat) : Nat × Nat :=
  let tile_map_base := if p.lcdc &&& 0x8 > 0 then 0x1c00 else 0x1800
  p.fetch_bg_window_tile tile_x tile_y offset_y tile_map_base

/-- `PPU::fetch_window_tile`. -/
def fetch_window_tile (p : PPU) (tile_x tile_y offset_y : Nat) : Nat × Nat :=
  let tile_map_base := if p.lcdc &&& 0x40 > 0 then 0x1c00 else 0x1800
  p.fetch_bg_window_tile tile_x tile_y offset_y tile_map_base

/-- `PPU::map_color`. -/
def map_color (_p : PPU) (color_no palette : Nat) : Nat :=
  if (palette >>> (color_no <<< 1)) &&& 0x3 = 0 then 0xff
  else if (palette >>> (color_no <<< 1)) &&& 0x3 = 1 then 0xaa
  else if (palette >>> (color_no <<< 1)) &&& 0x3 = 2 then 0x55
  else 0x00

/-- `PPU::get_color_no`. -/
def get_color_no (_p : PPU) (tile : Nat × Nat) (bitpos : Nat) : Nat :=
  let lo_bit := tile.1 >>> bitpos &&& 1
  let hi_bit := tile.2 >>> bitpos &&& 1
  hi_bit <<< 1 ||| lo_bit

/-- Loop body of `PPU::render_bg` (`for x in 0..SCREEN_W`), recursing on
the number `n` of remaining pixels; the mutable locals of the Rust loop
are threaded as arguments. -/
def render_bg_go (p : PPU) (tile_x tile_y offset_x offset_y : Nat) (tile : Nat × Nat)
    (window : Bool) (x n : Nat) : PPU :=
  match n with
  | 0 => p
  | n + 1 =>
    let st :=
      if p.lcdc &&& 0x20 > 0 ∧ p.wy ≤ p.ly ∧ p.wx = x + 7 then
        let ty := (p.ly - p.wy) >>> 3
        let oy := (p.ly - p.wy) &&& 0x7
        (0, ty, 0, oy, p.fetch_window_tile 0 ty oy, true)
      else (tile_x, tile_y, offset_x, offset_y, tile, window)
    match st with
    | (tile_x, tile_y, offset_x, offset_y, tile, window) =>
      let color_no := p.get_color_no tile (7 - offset_x)
      let color := p.map_color color_no p.bgp
      let p := { p with
        bg_prio := fun i =>
          if i = x then (if color_no = 0 then BGPriority.Color0 else BGPriority.Color123)
          else p.bg_prio i,
        scanline := upd p.scanline x color }
      let offset_x := offset_x + 1
      if offset_x ≥ 8 then
        let tile_x := tile_x + 1
        let tile := if window then p.fetch_window_tile tile_x tile_y offset_y
                    else p.fetch_bg_tile tile_x tile_y offset_y
        render_bg_go p tile_x tile_y 0 offset_y tile window (x + 1) n
      else
        render_bg_go p tile_x tile_y offset_x offset_y tile window (x + 1) n

/-- `PPU::render_bg`. -/
def render_bg (p : PPU) : PPU :=
  let tile_x := p.scx >>> 3
  let tile_y := ((p.scy + p.ly) % 256) >>> 3
  let offset_x := p.scx &&& 0x7
  let offset_y := ((p.scy + p.ly) % 256) &&& 0x7
  let tile := p.fetch_bg_tile tile_x tile_y offset_y
  render_bg_go p tile_x tile_y offset_x offset_y tile false 0 160

/-- Inner pixel loop of `PPU::render_sprites` (`for offset_x in 0..8`). -/
def render_sprite_pixels (p : PPU) (tile : Nat × Nat) (sprite_x : Nat)
    (flip_x obj_prio : Bool) (palette : Nat) (offset_x n : Nat) : PPU :=
  match n with
  | 0 => p
  | n + 1 =>
    if offset_x + sprite_x < 8 then
      render_sprite_pixels p tile sprite_x flip_x obj_prio palette (offset_x + 1) n
    else
      let x := offset_x + sprite_x - 8
      if x ≥ 160 then p
      else
        let bitpos := if flip_x then offset_x else 7 - offset_x
        let color_no := p.get_color_no tile bitpos
        if color_no = 0 then
          render_sprite_pixels p tile sprite_x flip_x obj_prio palette (offset_x + 1) n
        else if p.bg_prio x = BGPriority.Color123 ∧ obj_prio then
          render_sprite_pixels p tile sprite_x flip_x obj_prio palette (offset_x + 1) n
        else
          let color := p.map_color color_no palette
          let p := { p with scanline := upd p.scanline x color }
          render_sprite_pixels p tile sprite_x flip_x obj_prio palette (offset_x + 1) n

/-- Outer OAM loop of `PPU::render_sprites` (`for i in 0..40`), with the
visible-sprite counter threaded through; a `break` returns `p`. -/
def render_sprites_go (p : PPU) (height n_sprites i n : Nat) : PPU :=
  match n with
  | 0 => p
  | n + 1 =>
    let entry_addr := i <<< 2
    let sprite_y := p.oam entry_addr
    let sprite_x := p.oam (entry_addr + 1)
    let flags := p.oam (entry_addr + 3)
    let obj_prio := flags &&& 0x80 > 0
    let flip_y := flags &&& 0x40 > 0
    let flip_x := flags &&& 0x20 > 0
    let palette := if flags &&& 0x10 > 0 then p.obp1 else p.obp0
    if sprite_y ≤ p.ly + 16 - height ∨ sprite_y > p.ly + 16 then
      render_sprites_go p height n_sprites (i + 1) n
    else
      let n_sprites := n_sprites + 1
      if n_sprites > 10 then p
      else if sprite_x = 0 ∨ sprite_x > 160 + 8 - 1 then
        render_sprites_go p height n_sprites (i + 1) n
      else
        let tile_no :=
          if p.lcdc &&& 0x4 > 0 then
            if (decide (p.ly + 8 < sprite_y)).xor flip_y then p.oam (entry_addr + 2) &&& 0xfe
            else p.oam (entry_addr + 2) ||| 0x01
          else p.oam (entry_addr + 2)
        let offset_y :=
          if flip_y then 7 - ((p.ly + 16 - sprite_y) &&& 0x7)
          else (p.ly + 16 - sprite_y) &&& 0x7
        let tile := p.fetch_tile tile_no offset_y true
        let p := render_sprite_pixels p tile sprite_x flip_x obj_prio palette 0 8
        render_sprites_go p height n_sprites (i + 1) n

/-- `PPU::render_sprites`. -/
def render_sprites (p : PPU) : PPU :=
  let height := if p.lcdc &&& 0x4 > 0 then 16 else 8
  render_sprites_go p height 0 0 40

/-- Final copy loop of `PPU::render_scanline` (`for x in 0..SCREEN_W`). -/
def copy_scanline_go (p : PPU) (x n : Nat) : PPU :=
  match n with
  | 0 => p
  | n + 1 =>
    let p := { p with frame_buffer := upd p.frame_buffer (x + p.ly * 160) (p.scanline x) }
    copy_scanline_go p (x + 1) n

/-- `PPU::render_scanline`. -/
def render_scanline (p : PPU) : PPU :=
  let p := if p.lcdc &&& 0x1 > 0 then p.render_bg else p
  let p := if p.lcdc &&& 0x2 > 0 then p.render_sprites else p
  copy_scanline_go p 0 160

/-- `PPU::update_lyc_interrupt`. -/
def update_lyc_interrupt (p : PPU) : PPU :=
  if p.ly = p.lyc then
    let p := { p with stat := p.stat ||| 0x4 }
    if p.stat &&& 0x40 > 0 then { p with irq_lcdc := true } else p
  else
    { p with stat := p.stat &&& 0xfb }

/-- `PPU::update_mode_interrupt`. -/
def update_mode_interrupt (p : PPU) : PPU :=
  if p.stat &&& 0x3 = 0 ∧ p.stat &&& 0x8 > 0 then { p with irq_lcdc := true }
  else if p.stat &&& 0x3 = 1 ∧ p.stat &&& 0x10 > 0 then { p with irq_lcdc := true }
  else if p.stat &&& 0x3 = 2 ∧ p.stat &&& 0x20 > 0 then { p with irq_lcdc := true }
  else p

/-- `<PPU as IODevice>::write`; the `unreachable!` arm is the identity
(the MMU never routes other addresses here, in particular not 0xFF46). -/
def write (p : PPU) (addr val : Nat) : PPU :=
  if 0x8000 ≤ addr ∧ addr ≤ 0x9fff then
    if p.stat &&& 0x3 ≠ 3 then { p with vram := upd p.vram (addr &&& 0x1fff) val } else p
  else if 0xfe00 ≤ addr ∧ addr ≤ 0xfe9f then
    if p.stat &&& 0x3 = 0 ∨ p.stat &&& 0x3 = 1 then
      { p with oam := upd p.oam (addr &&& 0xff) val }
    else p
  else if addr = 0xff40 then
    let p :=
      if p.lcdc &&& 0x80 ≠ val &&& 0x80 then
        let p := { p with ly := 0, counter := 0 }
        let mode := if val &&& 0x80 > 0 then 2 else 0
        let p := { p with stat := (p.stat &&& 0xf8) ||| mode }
        p.update_mode_interrupt
      else p
    { p with lcdc := val }
  else if addr = 0xff41 then { p with stat := (val &&& 0xf8) ||| (p.stat &&& 0x3) }
  else if addr = 0xff42 then { p with scy := val }
  else if addr = 0xff43 then { p with scx := val }
  else if addr = 0xff44 then p
  else if addr = 0xff45 then
    if p.lyc ≠ val then PPU.update_lyc_interrupt { p with lyc := val } else p
  else if addr = 0xff47 then { p with bgp := val }
  else if addr = 0xff48 then { p with obp0 := val }
  else if addr = 0xff49 then { p with obp1 := val }
  else if addr = 0xff4a then { p with wy := val }
  else if addr = 0xff4b then { p with wx := val }
  else p

/-- `<PPU as IODevice>::read`; the `unreachable!` arm yields `0xff`. -/
def read (p : PPU) (addr : Nat) : Nat :=
  if 0x8000 ≤ addr ∧ addr ≤ 0x9fff then
    if p.stat &&& 0x3 ≠ 3 then p.vram (addr &&& 0x1fff) else 0xff
  else if 0xfe00 ≤ addr ∧ addr ≤ 0xfe9f then
    if p.stat &&& 0x3 = 0 ∨ p.stat &&& 0x3 = 1 then p.oam (addr &&& 0xff) else 0xff
  else if addr = 0xff40 then p.lcdc
  else if addr = 0xff41 then p.stat
  else if addr = 0xff42 then p.scy
  else if addr = 0xff43 then p.scx
  else if addr = 0xff44 then p.ly
  else if addr = 0xff45 then p.lyc
  else if addr = 0xff46 then p.dma
  else if addr = 0xff47 then p.bgp
  else if addr = 0xff48 then p.obp0
  else if addr = 0xff49 then p.obp1
  else if addr = 0xff4a then p.wy
  else if addr = 0xff4b then p.wx
  else 0xff

/-- `<PPU as IODevice>::update`: the LCD mode state machine, advanced by
`tick` T-cycles (at most one mode transition per call, as in the
source). -/
def update (p : PPU) (tick : Nat) : PPU :=
  if p.lcdc &&& 0x80 = 0 then p
  else
    let p := { p with counter := (p.counter + tick) % 65536 }
    if p.stat &&& 0x3 = 2 then
      if p.counter ≥ 80 then
        let p := { p with counter := p.counter - 80, stat := (p.stat &&& 0xf8) ||| 3 }
        p.render_scanline
      else p
    else if p.stat &&& 0x3 = 3 then
      if p.counter ≥ 172 then
        let p := { p with counter := p.counter - 172, stat := p.stat &&& 0xf8 }
        p.update_mode_interrupt
      else p
    else if p.stat &&& 0x3 = 0 then
      if p.counter ≥ 204 then
        let p := { p with counter := p.counter - 204, ly := (p.ly + 1) % 256 }
        let p :=
          if p.ly ≥ 144 then { p with stat := (p.stat &&& 0xf8) ||| 1, irq_vblank := true }
          else { p with stat := (p.stat &&& 0xf8) ||| 2 }
        p.update_lyc_interrupt.update_mode_interrupt
      else p
    else
      if p.counter ≥ 456 then
        let p := { p with counter := p.counter - 456, ly := (p.ly + 1) % 256 }
        let p :=
          if p.ly ≥ 154 then
            PPU.update_mode_interrupt { p with stat := (p.stat &&& 0xf8) ||| 2, ly := 0 }
          else p
        p.update_lyc_interrupt
      else p

end PPU

/-! ## MMU (`mmu.rs`) -/

/-- The bus (`struct MMU`); `ram` and `hram` are byte arrays modelled as
functions. -/
structure MMU where
  catridge : Catridge
  ram : Nat → Nat
  hram : Nat → Nat
  joypad : Joypad
  timer : Timer
  ppu : PPU
  int_flag : Nat
  int_enable : Nat

namespace MMU

/-- `MMU::read`: address decode for reads (`match addr` arms in source
order); the unmapped-hole default returns `0xff`. -/
def read (m : MMU) (addr : Nat) : Nat :=
  if addr ≤ 0x7fff then m.catridge.read addr
  else if addr ≤ 0x9fff then m.ppu.read addr
  else if addr ≤ 0xbfff then m.catridge.read addr
  else if addr ≤ 0xdfff then m.ram (addr &&& 0x1fff)
  else if addr ≤ 0xfdff then m.ram ((addr - 0x2000) &&& 0x1fff)
  else if addr ≤ 0xfe9f then m.ppu.read addr
  else if addr = 0xff00 then m.joypad.read addr
  else if 0xff04 ≤ addr ∧ addr ≤ 0xff07 then m.timer.read addr
  else if addr = 0xff0f then m.int_flag
  else if (0xff40 ≤ addr ∧ addr ≤ 0xff45) ∨ (0xff47 ≤ addr ∧ addr ≤ 0xff4b) then
    m.ppu.read addr
  else if 0xff80 ≤ addr ∧ addr ≤ 0xfffe then m.hram (addr &&& 0x7f)
  else if addr = 0xffff then m.int_enable
  else 0xff

/-- `MMU::write` without the OAM-DMA arm (address 0xFF46 falls through
to the swallow-writes default here).  The DMA engine only issues writes
to 0xFE00–0xFE9F, where this function routes exactly like `MMU::write`,
so using it inside the DMA loop breaks the write/do_dma recursion of
the source without changing behaviour. -/
def write1 (m : MMU) (addr val : Nat) : MMU :=
  if addr ≤ 0x7fff then { m with catridge := m.catridge.write addr val }
  else if addr ≤ 0x9fff then { m with ppu := m.ppu.write addr val }
  else if addr ≤ 0xbfff then { m with catridge := m.catridge.write addr val }
  else if addr ≤ 0xdfff then { m with ram := upd m.ram (addr &&& 0x1fff) val }
  else if addr ≤ 0xfdff then { m with ram := upd m.ram ((addr - 0x2000) &&& 0x1fff) val }
  else if addr ≤ 0xfe9f then { m with ppu := m.ppu.write addr val }
  else if addr = 0xff00 then { m with joypad := m.joypad.write addr val }
  else if 0xff04 ≤ addr ∧ addr ≤ 0xff07 then { m with timer := m.timer.write addr val }
  else if addr = 0xff0f then { m with int_flag := val }
  else if (0xff40 ≤ addr ∧ addr ≤ 0xff45) ∨ (0xff47 ≤ addr ∧ addr ≤ 0xff4b) then
    { m with ppu := m.ppu.write addr val }
  else if 0xff80 ≤ addr ∧ addr ≤ 0xfffe then { m with hram := upd m.hram (addr &&& 0x7f) val }
  else if addr = 0xffff then { m with int_enable := val }
  else m

/-- The reachable `panic!` of `MMU::do_dma`: an invalid DMA source
aborts (`if val < 0x80 || 0xdf < val`). -/
def do_dma_aborts (val : Nat) : Bool :=
  val < 0x80 || 0xdf < val

/-- Copy loop of `MMU::do_dma` (`for i in 0..0xa0`): the first `n`
indices are copied in increasing order; each iteration reads
`src_base | i` and writes the byte to `dst_base | i`. -/
def do_dma_go (m : MMU) (src_base dst_base : Nat) : Nat → MMU
  | 0 => m
  | n + 1 =>
    (do_dma_go m src_base dst_base n).write1 (dst_base ||| n)
      ((do_dma_go m src_base dst_base n).read (src_base ||| n))

/-- `MMU::do_dma`; the abort (`panic!`) is modelled as leaving the
machine unchanged, with `do_dma_aborts` recording that the program
aborts there. -/
def do_dma (m : MMU) (val : Nat) : MMU :=
  if do_dma_aborts val then m
  else do_dma_go m (val <<< 8) 0xfe00 0xa0

/-- `MMU::write`: full address decode for writes. -/
def write (m : MMU) (addr val : Nat) : MMU :=
  if addr = 0xff46 then m.do_dma val else m.write1 addr val

/-- `MMU::update`: fan the tick out to the peripherals (cartridge, PPU,
timer, joypad in source order), then transfer the latched request lines
into IF and clear them.  `timer.rs`'s `update` returns its IRQ flag;
the `self.timer.irq` read-and-clear in `mmu.rs` corresponds to using
that per-call flag here. -/
def update (m : MMU) (tick : Nat) : MMU :=
  let m := { m with catridge := m.catridge.update tick }
  let m := { m with ppu := m.ppu.update tick }
  let tu := m.timer.update tick
  let m := { m with timer := tu.1 }
  let m := { m with joypad := m.joypad.update tick }
  let m :=
    if m.ppu.irq_vblank then
      { m with int_flag := m.int_flag ||| 0x1, ppu := { m.ppu with irq_vblank := false } }
    else m
  let m :=
    if m.ppu.irq_lcdc then
      { m with int_flag := m.int_flag ||| 0x2, ppu := { m.ppu with irq_lcdc := false } }
    else m
  let m := if tu.2 then { m with int_flag := m.int_flag ||| 0x4 } else m
  let m :=
    if m.joypad.irq then
      { m with int_flag := m.int_flag ||| 0x10, joypad := { m.joypad with irq := false } }
    else m
  m

end MMU

/-! ## CPU (`cpu.rs`)

Rust's `&mut self` methods become state-passing functions; methods that
also return a value become `Nat × CPU`.  `u8`/`u16` wrap-around is
written as explicit `% 256` / `% 65536`. -/

/-- CPU state (`struct CPU`). -/
structure CPU where
  mmu : MMU
  pc : Nat
  sp : Nat
  a : Nat
  f : Nat
  b : Nat
  c : Nat
  d : Nat
  e : Nat
  h : Nat
  l : Nat
  ime : Bool
  tick : Nat
  halted : Bool

namespace CPU

/-- `CPU::af`. -/
def af (s : CPU) : Nat := (s.a <<< 8) ||| s.f

/-- `CPU::set_af`. -/
def set_af (s : CPU) (val : Nat) : CPU :=
  { s with a := (val >>> 8) &&& 0xff, f := val &&& 0xff }

/-- `CPU::bc`. -/
def bc (s : CPU) : Nat := (s.b <<< 8) ||| s.c

/-- `CPU::set_bc`. -/
def set_bc (s : CPU) (val : Nat) : CPU :=
  { s with b := (val >>> 8) &&& 0xff, c := val &&& 0xff }

/-- `CPU::de`. -/
def de (s : CPU) : Nat := (s.d <<< 8) ||| s.e

/-- `CPU::set_de`. -/
def set_de (s : CPU) (val : Nat) : CPU :=
  { s with d := (val >>> 8) &&& 0xff, e := val &&& 0xff }

/-- `CPU::hl`. -/
def hl (s : CPU) : Nat := (s.h <<< 8) ||| s.l

/-- `CPU::set_hl`. -/
def set_hl (s : CPU) (val : Nat) : CPU :=
  { s with h := (val >>> 8) &&& 0xff, l := val &&& 0xff }

/-- `CPU::set_f_z` (`self.f = (self.f & !(1 << 7)) | (u8::from(z) << 7)`). -/
def set_f_z (s : CPU) (z : Bool) : CPU :=
  { s with f := (s.f &&& (0xff ^^^ (1 <<< 7))) ||| (b2n z <<< 7) }

/-- `CPU::f_z`. -/
def f_z (s : CPU) : Bool := (s.f >>> 7) &&& 1 == 1

/-- `CPU::set_f_n`. -/
def set_f_n (s : CPU) (n : Bool) : CPU :=
  { s with f := (s.f &&& (0xff ^^^ (1 <<< 6))) ||| (b2n n <<< 6) }

/-- `CPU::f_n`. -/
def f_n (s : CPU) : Bool := (s.f >>> 6) &&& 1 == 1

/-- `CPU::set_f_h`. -/
def set_f_h (s : CPU) (h : Bool) : CPU :=
  { s with f := (s.f &&& (0xff ^^^ (1 <<< 5))) ||| (b2n h <<< 5) }

/-- `CPU::f_h`. -/
def f_h (s : CPU) : Bool := (s.f >>> 5) &&& 1 == 1

/-- `CPU::set_f_c`. -/
def set_f_c (s : CPU) (c : Bool) : CPU :=
  { s with f := (s.f &&& (0xff ^^^ (1 <<< 4))) ||| (b2n c <<< 4) }

/-- `CPU::f_c`. -/
def f_c (s : CPU) : Bool := (s.f >>> 4) &&& 1 == 1

/-- `CPU::write_mem8`: bus write plus 4 T-cycles. -/
def write_mem8 (s : CPU) (addr val : Nat) : CPU :=
  { s with mmu := s.mmu.write addr val, tick := s.tick + 4 }

/-- `CPU::read_mem8`: bus read plus 4 T-cycles. -/
def read_mem8 (s : CPU) (addr : Nat) : Nat × CPU :=
  (s.mmu.read addr, { s with tick := s.tick + 4 })

/-- `CPU::write_mem16`: low byte at `addr`, high byte at `addr + 1`. -/
def write_mem16 (s : CPU) (addr val : Nat) : CPU :=
  let s := s.write_mem8 addr (val &&& 0xff)
  s.write_mem8 ((addr + 1) % 65536) ((val >>> 8) &&& 0xff)

/-- `CPU::read_mem16`. -/
def read_mem16 (s : CPU) (addr : Nat) : Nat × CPU :=
  let lo := s.read_mem8 addr
  let hi := lo.2.read_mem8 ((addr + 1) % 65536)
  ((hi.1 <<< 8) ||| lo.1, hi.2)

/-- `CPU::write_r8`; the panicking index arm is the identity. -/
def write_r8 (s : CPU) (idx val : Nat) : CPU :=
  if idx = 0 then { s with b := val }
  else if idx = 1 then { s with c := val }
  else if idx = 2 then { s with d := val }
  else if idx = 3 then { s with e := val }
  else if idx = 4 then { s with h := val }
  else if idx = 5 then { s with l := val }
  else if idx = 6 then s.write_mem8 s.hl val
  else if idx = 7 then { s with a := val }
  else s

/-- `CPU::read_r8`; the panicking index arm yields 0. -/
def read_r8 (s : CPU) (idx : Nat) : Nat × CPU :=
  if idx = 0 then (s.b, s)
  else if idx = 1 then (s.c, s)
  else if idx = 2 then (s.d, s)
  else if idx = 3 then (s.e, s)
  else if idx = 4 then (s.h, s)
  else if idx = 5 then (s.l, s)
  else if idx = 6 then s.read_mem8 s.hl
  else if idx = 7 then (s.a, s)
  else (0, s)

/-- `CPU::write_r16`; the panicking index arm is the identity. -/
def write_r16 (s : CPU) (idx val : Nat) : CPU :=
  if idx = 0 then s.set_bc val
  else if idx = 1 then s.set_de val
  else if idx = 2 then s.set_hl val
  else if idx = 3 then { s with sp := val }
  else s

/-- `CPU::read_r16`; the panicking index arm yields 0. -/
def read_r16 (s : CPU) (idx : Nat) : Nat :=
  if idx = 0 then s.bc
  else if idx = 1 then s.de
  else if idx = 2 then s.hl
  else if idx = 3 then s.sp
  else 0

/-- `CPU::read_d8`: fetch an immediate byte at PC. -/
def read_d8 (s : CPU) : Nat × CPU :=
  let r := s.read_mem8 s.pc
  (r.1, { r.2 with pc := (r.2.pc + 1) % 65536 })

/-- `CPU::read_d16`: fetch an immediate word at PC. -/
def read_d16 (s : CPU) : Nat × CPU :=
  let r := s.read_mem16 s.pc
  (r.1, { r.2 with pc := (r.2.pc + 2) % 65536 })

/-- `CPU::cc`: branch-condition decode; the panicking arm is `false`. -/
def cc (s : CPU) (idx : Nat) : Bool :=
  if idx = 0 then !s.f_z
  else if idx = 1 then s.f_z
  else if idx = 2 then !s.f_c
  else if idx = 3 then s.f_c
  else false

/-- `CPU::nop`. -/
def nop (s : CPU) : CPU := s

/-- `CPU::ld_r16_d16`. -/
def ld_r16_d16 (s : CPU) (reg : Nat) : CPU :=
  let r := s.read_d16
  r.2.write_r16 reg r.1

/-- `CPU::ld_ind_d16_sp`. -/
def ld_ind_d16_sp (s : CPU) : CPU :=
  let r := s.read_d16
  r.2.write_mem16 r.1 r.2.sp

/-- `CPU::ld_sp_hl`. -/
def ld_sp_hl (s : CPU) : CPU :=
  let s := { s with tick := s.tick + 4 }
  { s with sp := s.hl }

/-- `CPU::add_hl_r16`. -/
def add_hl_r16 (s : CPU) (reg : Nat) : CPU :=
  let hl := s.hl
  let val := s.read_r16 reg
  let half_carry := (hl &&& 0xfff) + (val &&& 0xfff) > 0xfff
  let carry := hl + val > 0xffff
  let s := s.set_hl ((hl + val) % 65536)
  let s := { s with tick := s.tick + 4 }
  ((s.set_f_n false).set_f_h half_carry).set_f_c carry

/-- `CPU::_add_sp`: shared body of ADD SP,e8 and LD HL,SP+e8. -/
def _add_sp (s : CPU) (offset : Nat) : Nat × CPU :=
  let val := sext8 offset
  let half_carry := (s.sp &&& 0x0f) + (val &&& 0x0f) > 0x0f
  let carry := (s.sp &&& 0xff) + (val &&& 0xff) > 0xff
  let s := (((s.set_f_z false).set_f_n false).set_f_h half_carry).set_f_c carry
  ((s.sp + val) % 65536, s)

/-- `CPU::add_sp_d8`. -/
def add_sp_d8 (s : CPU) : CPU :=
  let r := s.read_d8
  let q := r.2._add_sp r.1
  let s := { q.2 with sp := q.1 }
  { s with tick := s.tick + 8 }

/-- `CPU::ld_hl_sp_d8`. -/
def ld_hl_sp_d8 (s : CPU) : CPU :=
  let r := s.read_d8
  let s := { r.2 with tick := r.2.tick + 4 }
  let q := s._add_sp r.1
  q.2.set_hl q.1

/-- `CPU::and_r8`. -/
def and_r8 (s : CPU) (reg : Nat) : CPU :=
  let r := s.read_r8 reg
  let res := s.a &&& r.1
  let s := { r.2 with a := res }
  (((s.set_f_z (res == 0)).set_f_n false).set_f_h true).set_f_c false

/-- `CPU::or_r8`. -/
def or_r8 (s : CPU) (reg : Nat) : CPU :=
  let r := s.read_r8 reg
  let res := s.a ||| r.1
  let s := { r.2 with a := res }
  (((s.set_f_z (res == 0)).set_f_n false).set_f_h false).set_f_c false

/-- `CPU::xor_r8`. -/
def xor_r8 (s : CPU) (reg : Nat) : CPU :=
  let r := s.read_r8 reg
  let res := s.a ^^^ r.1
  let s := { r.2 with a := res }
  (((s.set_f_z (res == 0)).set_f_n false).set_f_h false).set_f_c false

/-- `CPU::cp_r8`. -/
def cp_r8 (s : CPU) (reg : Nat) : CPU :=
  let a := s.a
  let r := s.read_r8 reg
  let s := r.2
  (((s.set_f_z (a == r.1)).set_f_n true).set_f_h (a &&& 0x0f < r.1 &&& 0x0f)).set_f_c
    (a < r.1)

/-- `CPU::daa`: decimal adjust A after a BCD addition/subtraction. -/
def daa (s : CPU) : CPU :=
  let a := s.a
  let st :=
    if !s.f_n then
      let st :=
        if s.f_c || a > 0x99 then ((a + 0x60) % 256, s.set_f_c true) else (a, s)
      match st with
      | (a, s) => if s.f_h || a &&& 0x0f > 0x09 then ((a + 0x06) % 256, s) else (a, s)
    else
      let a := if s.f_c then (a + 256 - 0x60) % 256 else a
      let a := if s.f_h then (a + 256 - 0x06) % 256 else a
      (a, s)
  match st with
  | (a, s) =>
    let s := { s with a := a }
    (s.set_f_z (a == 0)).set_f_h false

/-- `CPU::cpl`. -/
def cpl (s : CPU) : CPU :=
  let s := { s with a := s.a ^^^ 0xff }
  (s.set_f_n true).set_f_h true

/-- `CPU::ccf`. -/
def ccf (s : CPU) : CPU :=
  let s := (s.set_f_n false).set_f_h false
  s.set_f_c (!s.f_c)

/-- `CPU::scf`. -/
def scf (s : CPU) : CPU :=
  ((s.set_f_n false).set_f_h false).set_f_c true

/-- `CPU::_add`. -/
def _add (s : CPU) (val : Nat) : CPU :=
  let half_carry := (s.a &&& 0xf) + (val &&& 0xf) > 0xf
  let carry := s.a + val > 0xff
  let res := (s.a + val) % 256
  let s := { s with a := res }
  (((s.set_f_z (res == 0)).set_f_n false).set_f_h half_carry).set_f_c carry

/-- `CPU::_sub`. -/
def _sub (s : CPU) (val : Nat) : CPU :=
  let half_carry := s.a &&& 0xf < val &&& 0xf
  let carry := s.a < val
  let res := (s.a + 256 - val % 256) % 256
  let s := { s with a := res }
  (((s.set_f_z (res == 0)).set_f_n true).set_f_h half_carry).set_f_c carry

/-- `CPU::_adc`. -/
def _adc (s : CPU) (val : Nat) : CPU :=
  let c := if s.f_c then 1 else 0
  let res := (s.a + val + c) % 256
  let half_carry := (s.a &&& 0xf) + (val &&& 0xf) + c > 0xf
  let carry := s.a + val + c > 0xff
  let s := { s with a := res }
  (((s.set_f_z (res == 0)).set_f_n false).set_f_h half_carry).set_f_c carry

/-- `CPU::_sbc`. -/
def _sbc (s : CPU) (val : Nat) : CPU :=
  let c := if s.f_c then 1 else 0
  let res := ((s.a + 256 - val % 256) % 256 + 256 - c) % 256
  let half_carry := s.a &&& 0xf < (val &&& 0xf) + c
  let carry := s.a < val + c
  let s := { s with a := res }
  (((s.set_f_z (res == 0)).set_f_n true).set_f_h half_carry).set_f_c carry

/-- `CPU::add_r8`. -/
def add_r8 (s : CPU) (reg : Nat) : CPU :=
  let r := s.read_r8 reg
  r.2._add r.1

/-- `CPU::adc_r8`. -/
def adc_r8 (s : CPU) (reg : Nat) : CPU :=
  let r := s.read_r8 reg
  r.2._adc r.1

/-- `CPU::sub_r8`. -/
def sub_r8 (s : CPU) (reg : Nat) : CPU :=
  let r := s.read_r8 reg
  r.2._sub r.1

/-- `CPU::sbc_r8`. -/
def sbc_r8 (s : CPU) (reg : Nat) : CPU :=
  let r := s.read_r8 reg
  r.2._sbc r.1

/-- `CPU::add_d8`. -/
def add_d8 (s : CPU) : CPU :=
  let r := s.read_d8
  r.2._add r.1

/-- `CPU::sub_d8`. -/
def sub_d8 (s : CPU) : CPU :=
  let r := s.read_d8
  r.2._sub r.1

/-- `CPU::adc_d8`. -/
def adc_d8 (s : CPU) : CPU :=
  let r := s.read_d8
  r.2._adc r.1

/-- `CPU::sbc_d8`. -/
def sbc_d8 (s : CPU) : CPU :=
  let r := s.read_d8
  r.2._sbc r.1

/-- `CPU::and_d8`. -/
def and_d8 (s : CPU) : CPU :=
  let r := s.read_d8
  let res := s.a &&& r.1
  let s := { r.2 with a := res }
  (((s.set_f_z (res == 0)).set_f_n false).set_f_h true).set_f_c false

/-- `CPU::or_d8`. -/
def or_d8 (s : CPU) : CPU :=
  let r := s.read_d8
  let res := s.a ||| r.1
  let s := { r.2 with a := res }
  (((s.set_f_z (res == 0)).set_f_n false).set_f_h false).set_f_c false

/-- `CPU::xor_d8`. -/
def xor_d8 (s : CPU) : CPU :=
  let r := s.read_d8
  let res := s.a ^^^ r.1
  let s := { r.2 with a := res }
  (((s.set_f_z (res == 0)).set_f_n false).set_f_h false).set_f_c false

/-- `CPU::cp_d8`. -/
def cp_d8 (s : CPU) : CPU :=
  let r := s.read_d8
  let a := s.a
  let s := r.2
  (((s.set_f_z (a == r.1)).set_f_n true).set_f_h (a &&& 0x0f < r.1 &&& 0x0f)).set_f_c
    (a < r.1)

/-- `CPU::ldi_hl_a`. -/
def ldi_hl_a (s : CPU) : CPU :=
  let s := s.write_mem8 s.hl s.a
  s.set_hl ((s.hl + 1) % 65536)

/-- `CPU::ldd_hl_a`. -/
def ldd_hl_a (s : CPU) : CPU :=
  let s := s.write_mem8 s.hl s.a
  s.set_hl ((s.hl + 65535) % 65536)

/-- `CPU::ldi_a_hl`. -/
def ldi_a_hl (s : CPU) : CPU :=
  let r := s.read_mem8 s.hl
  let s := { r.2 with a := r.1 }
  s.set_hl ((s.hl + 1) % 65536)

/-- `CPU::ldd_a_hl`. -/
def ldd_a_hl (s : CPU) : CPU :=
  let r := s.read_mem8 s.hl
  let s := { r.2 with a := r.1 }
  s.set_hl ((s.hl + 65535) % 65536)

/-- `CPU::ld_ind_bc_a`. -/
def ld_ind_bc_a (s : CPU) : CPU := s.write_mem8 s.bc s.a

/-- `CPU::ld_ind_de_a`. -/
def ld_ind_de_a (s : CPU) : CPU := s.write_mem8 s.de s.a

/-- `CPU::ld_a_ind_bc`. -/
def ld_a_ind_bc (s : CPU) : CPU :=
  let r := s.read_mem8 s.bc
  { r.2 with a := r.1 }

/-- `CPU::ld_a_ind_de`. -/
def ld_a_ind_de (s : CPU) : CPU :=
  let r := s.read_mem8 s.de
  { r.2 with a := r.1 }

/-- `CPU::bit` (CB-prefixed BIT). -/
def bit (s : CPU) (pos reg : Nat) : CPU :=
  let r := s.read_r8 reg
  let z := (r.1 >>> pos) &&& 1 == 0
  ((r.2.set_f_z z).set_f_n false).set_f_h true

/-- `CPU::set` (CB-prefixed SET). -/
def set (s : CPU) (pos reg : Nat) : CPU :=
  let r := s.read_r8 reg
  r.2.write_r8 reg (r.1 ||| (1 <<< pos))

/-- `CPU::res` (CB-prefixed RES). -/
def res (s : CPU) (pos reg : Nat) : CPU :=
  let r := s.read_r8 reg
  r.2.write_r8 reg (r.1 &&& (0xff ^^^ (1 <<< pos)))

/-- `CPU::_rl`: rotate left through carry. -/
def _rl (s : CPU) (reg : Nat) : CPU :=
  let r := s.read_r8 reg
  let orig := r.1
  let res := ((orig <<< 1) % 256) ||| b2n r.2.f_c
  let s := r.2.write_r8 reg res
  (((s.set_f_z (res == 0)).set_f_n false).set_f_h false).set_f_c ((orig >>> 7) &&& 1 == 1)

/-- `CPU::rl`. -/
def rl (s : CPU) (reg : Nat) : CPU := s._rl reg

/-- `CPU::_rlc`: 8-bit rotate left. -/
def _rlc (s : CPU) (reg : Nat) : CPU :=
  let r := s.read_r8 reg
  let orig := r.1
  let res := ((orig <<< 1) ||| (orig >>> 7)) &&& 0xff
  let s := r.2.write_r8 reg res
  (((s.set_f_z (res == 0)).set_f_n false).set_f_h false).set_f_c ((orig >>> 7) &&& 1 == 1)

/-- `CPU::rlc`. -/
def rlc (s : CPU) (reg : Nat) : CPU := s._rlc reg

/-- `CPU::_rr`: rotate right through carry. -/
def _rr (s : CPU) (reg : Nat) : CPU :=
  let r := s.read_r8 reg
  let orig := r.1
  let res := (orig >>> 1) ||| (b2n r.2.f_c <<< 7)
  let s := r.2.write_r8 reg res
  (((s.set_f_z (res == 0)).set_f_n false).set_f_h false).set_f_c (orig &&& 1 == 1)

/-- `CPU::rr`. -/
def rr (s : CPU) (reg : Nat) : CPU := s._rr reg

/-- `CPU::_rrc`: 8-bit rotate right. -/
def _rrc (s : CPU) (reg : Nat) : CPU :=
  let r := s.read_r8 reg
  let orig := r.1
  let res := ((orig >>> 1) ||| (orig <<< 7)) &&& 0xff
  let s := r.2.write_r8 reg res
  (((s.set_f_z (res == 0)).set_f_n false).set_f_h false).set_f_c (orig &&& 1 == 1)

/-- `CPU::rrc`. -/
def rrc (s : CPU) (reg : Nat) : CPU := s._rrc reg

/-- `CPU::sla`. -/
def sla (s : CPU) (reg : Nat) : CPU :=
  let r := s.read_r8 reg
  let orig := r.1
  let res := (orig <<< 1) % 256
  let s := r.2.write_r8 reg res
  (((s.set_f_z (res == 0)).set_f_n false).set_f_h false).set_f_c (orig &&& 0x80 > 0)

/-- `CPU::sra`. -/
def sra (s : CPU) (reg : Nat) : CPU :=
  let r := s.read_r8 reg
  let orig := r.1
  let res := (orig >>> 1) ||| (orig &&& 0x80)
  let s := r.2.write_r8 reg res
  (((s.set_f_z (res == 0)).set_f_n false).set_f_h false).set_f_c (orig &&& 1 > 0)

/-- `CPU::swap`. -/
def swap (s : CPU) (reg : Nat) : CPU :=
  let r := s.read_r8 reg
  let orig := r.1
  let res := ((orig &&& 0x0f) <<< 4) ||| ((orig &&& 0xf0) >>> 4)
  let s := r.2.write_r8 reg res
  (((s.set_f_z (res == 0)).set_f_n false).set_f_h false).set_f_c false

/-- `CPU::srl`. -/
def srl (s : CPU) (reg : Nat) : CPU :=
  let r := s.read_r8 reg
  let orig := r.1
  let res := orig >>> 1
  let s := r.2.write_r8 reg res
  (((s.set_f_z (res == 0)).set_f_n false).set_f_h false).set_f_c (orig &&& 1 == 1)

/-- `CPU::_jp`. -/
def _jp (s : CPU) (addr : Nat) : CPU :=
  { s with pc := addr, tick := s.tick + 4 }

/-- `CPU::jp_cc_d8`. -/
def jp_cc_d8 (s : CPU) (cci : Nat) : CPU :=
  let r := s.read_d16
  if r.2.cc cci then r.2._jp r.1 else r.2

/-- `CPU::jp_d16`. -/
def jp_d16 (s : CPU) : CPU :=
  let r := s.read_d16
  r.2._jp r.1

/-- `CPU::jp_hl`. -/
def jp_hl (s : CPU) : CPU := { s with pc := s.hl }

/-- `CPU::_jr`: relative jump by a sign-extended byte offset. -/
def _jr (s : CPU) (offset : Nat) : CPU :=
  { s with pc := (s.pc + sext8 offset) % 65536, tick := s.tick + 4 }

/-- `CPU::jr_cc_d8`. -/
def jr_cc_d8 (s : CPU) (cci : Nat) : CPU :=
  let r := s.read_d8
  if r.2.cc cci then r.2._jr r.1 else r.2

/-- `CPU::jr_d8`. -/
def jr_d8 (s : CPU) : CPU :=
  let r := s.read_d8
  r.2._jr r.1

/-- `CPU::ld_io_d8_a`. -/
def ld_io_d8_a (s : CPU) : CPU :=
  let r := s.read_d8
  r.2.write_mem8 (0xff00 ||| r.1) r.2.a

/-- `CPU::ld_a_io_d8`. -/
def ld_a_io_d8 (s : CPU) : CPU :=
  let r := s.read_d8
  let q := r.2.read_mem8 (0xff00 ||| r.1)
  { q.2 with a := q.1 }

/-- `CPU::ld_io_c_a`. -/
def ld_io_c_a (s : CPU) : CPU :=
  s.write_mem8 (0xff00 ||| s.c) s.a

/-- `CPU::ld_a_io_c`. -/
def ld_a_io_c (s : CPU) : CPU :=
  let r := s.read_mem8 (0xff00 ||| s.c)
  { r.2 with a := r.1 }

/-- `CPU::ld_r8_d8`. -/
def ld_r8_d8 (s : CPU) (reg : Nat) : CPU :=
  let r := s.read_d8
  r.2.write_r8 reg r.1

/-- `CPU::inc_r8`. -/
def inc_r8 (s : CPU) (reg : Nat) : CPU :=
  let r := s.read_r8 reg
  let orig := r.1
  let res := (orig + 1) % 256
  let s := r.2.write_r8 reg res
  ((s.set_f_z (res == 0)).set_f_h (orig &&& 0x0f == 0x0f)).set_f_n false

/-- `CPU::dec_r8`. -/
def dec_r8 (s : CPU) (reg : Nat) : CPU :=
  let r := s.read_r8 reg
  let orig := r.1
  let res := (orig + 255) % 256
  let s := r.2.write_r8 reg res
  ((s.set_f_z (res == 0)).set_f_h (orig &&& 0x0f == 0x00)).set_f_n true

/-- `CPU::ld_r8_r8`. -/
def ld_r8_r8 (s : CPU) (reg1 reg2 : Nat) : CPU :=
  let r := s.read_r8 reg2
  r.2.write_r8 reg1 r.1

/-- `CPU::_call`: push PC and jump. -/
def _call (s : CPU) (addr : Nat) : CPU :=
  let s := { s with sp := (s.sp + 65534) % 65536 }
  let s := { s with tick := s.tick + 4 }
  let s := s.write_mem16 s.sp s.pc
  { s with pc := addr }

/-- `CPU::call_d16`. -/
def call_d16 (s : CPU) : CPU :=
  let r := s.read_d16
  r.2._call r.1

/-- `CPU::call_cc_d16`. -/
def call_cc_d16 (s : CPU) (cci : Nat) : CPU :=
  let r := s.read_d16
  if r.2.cc cci then r.2._call r.1 else r.2

/-- `CPU::rst`. -/
def rst (s : CPU) (addr : Nat) : CPU := s._call addr

/-- `CPU::_ret`. -/
def _ret (s : CPU) : CPU :=
  let r := s.read_mem16 s.sp
  let s := { r.2 with pc := r.1 }
  let s := { s with sp := (s.sp + 2) % 65536 }
  { s with tick := s.tick + 4 }

/-- `CPU::ret`. -/
def ret (s : CPU) : CPU := s._ret

/-- `CPU::ret_cc`. -/
def ret_cc (s : CPU) (cci : Nat) : CPU :=
  let s := { s with tick := s.tick + 4 }
  if s.cc cci then s._ret else s

/-- `CPU::push_bc`. -/
def push_bc (s : CPU) : CPU :=
  let s := { s with sp := (s.sp + 65534) % 65536 }
  let s := { s with tick := s.tick + 4 }
  s.write_mem16 s.sp s.bc

/-- `CPU::push_de`. -/
def push_de (s : CPU) : CPU :=
  let s := { s with sp := (s.sp + 65534) % 65536 }
  let s := { s with tick := s.tick + 4 }
  s.write_mem16 s.sp s.de

/-- `CPU::push_hl`. -/
def push_hl (s : CPU) : CPU :=
  let s := { s with sp := (s.sp + 65534) % 65536 }
  let s := { s with tick := s.tick + 4 }
  s.write_mem16 s.sp s.hl

/-- `CPU::push_af`. -/
def push_af (s : CPU) : CPU :=
  let s := { s with sp := (s.sp + 65534) % 65536 }
  let s := { s with tick := s.tick + 4 }
  s.write_mem16 s.sp s.af

/-- `CPU::pop_bc`. -/
def pop_bc (s : CPU) : CPU :=
  let r := s.read_mem16 s.sp
  let s := r.2.set_bc r.1
  { s with sp := (s.sp + 2) % 65536 }

/-- `CPU::pop_de`. -/
def pop_de (s : CPU) : CPU :=
  let r := s.read_mem16 s.sp
  let s := r.2.set_de r.1
  { s with sp := (s.sp + 2) % 65536 }

/-- `CPU::pop_hl`. -/
def pop_hl (s : CPU) : CPU :=
  let r := s.read_mem16 s.sp
  let s := r.2.set_hl r.1
  { s with sp := (s.sp + 2) % 65536 }

/-- `CPU::pop_af`: the popped low nibble is masked to zero. -/
def pop_af (s : CPU) : CPU :=
  let r := s.read_mem16 s.sp
  let s := r.2.set_af (r.1 &&& 0xfff0)
  { s with sp := (s.sp + 2) % 65536 }

/-- `CPU::rlca`. -/
def rlca (s : CPU) : CPU := (s._rlc 7).set_f_z false

/-- `CPU::rla`. -/
def rla (s : CPU) : CPU := (s._rl 7).set_f_z false

/-- `CPU::rrca`. -/
def rrca (s : CPU) : CPU := (s._rrc 7).set_f_z false

/-- `CPU::rra`. -/
def rra (s : CPU) : CPU := (s._rr 7).set_f_z false

/-- `CPU::inc_r16`. -/
def inc_r16 (s : CPU) (reg : Nat) : CPU :=
  let s := s.write_r16 reg ((s.read_r16 reg + 1) % 65536)
  { s with tick := s.tick + 4 }

/-- `CPU::dec_r16`. -/
def dec_r16 (s : CPU) (reg : Nat) : CPU :=
  let s := s.write_r16 reg ((s.read_r16 reg + 65535) % 65536)
  { s with tick := s.tick + 4 }

/-- `CPU::ld_ind_d16_a`. -/
def ld_ind_d16_a (s : CPU) : CPU :=
  let r := s.read_d16
  r.2.write_mem8 r.1 r.2.a

/-- `CPU::ld_a_ind_d16`. -/
def ld_a_ind_d16 (s : CPU) : CPU :=
  let r := s.read_d16
  let q := r.2.read_mem8 r.1
  { q.2 with a := q.1 }

/-- `CPU::di`. -/
def di (s : CPU) : CPU := { s with ime := false }

/-- `CPU::ei`. -/
def ei (s : CPU) : CPU := { s with ime := true }

/-- `CPU::reti`. -/
def reti (s : CPU) : CPU := { s with ime := true }._ret

/-- `CPU::prefix` (renamed: `prefix` is a Lean keyword): decode and run
one CB-prefixed opcode. -/
def cbPrefixed (s : CPU) : CPU :=
  let r := s.read_d8
  let opcode := r.1
  let s := r.2
  let pos := (opcode >>> 3) &&& 0x7
  let reg := opcode &&& 0x7
  if opcode ≤ 0x07 then s.rlc reg
  else if opcode ≤ 0x0f then s.rrc reg
  else if opcode ≤ 0x17 then s.rl reg
  else if opcode ≤ 0x1f then s.rr reg
  else if opcode ≤ 0x27 then s.sla reg
  else if opcode ≤ 0x2f then s.sra reg
  else if opcode ≤ 0x37 then s.swap reg
  else if opcode ≤ 0x3f then s.srl reg
  else if opcode ≤ 0x7f then s.bit pos reg
  else if opcode ≤ 0xbf then s.res pos reg
  else s.set pos reg

/-- `CPU::halt`: only latches when IME is set. -/
def halt (s : CPU) : CPU :=
  if s.ime then { s with halted := true } else s

/-- `CPU::fetch_and_exec`: fetch one opcode at PC and dispatch; the
`panic!` on an unimplemented opcode is `none` (guest abort). -/
def fetch_and_exec (s : CPU) : Option CPU :=
  let r := s.read_d8
  let opcode := r.1
  let s := r.2
  let reg := opcode &&& 7
  let reg2 := (opcode >>> 3) &&& 7
  if opcode = 0x00 then some s.nop
  else if opcode = 0x01 ∨ opcode = 0x11 ∨ opcode = 0x21 ∨ opcode = 0x31 then
    some (s.ld_r16_d16 (opcode >>> 4))
  else if opcode = 0x08 then some s.ld_ind_d16_sp
  else if opcode = 0xf9 then some s.ld_sp_hl
  else if opcode = 0x02 then some s.ld_ind_bc_a
  else if opcode = 0x12 then some s.ld_ind_de_a
  else if opcode = 0x0a then some s.ld_a_ind_bc
  else if opcode = 0x1a then some s.ld_a_ind_de
  else if opcode = 0xc5 then some s.push_bc
  else if opcode = 0xd5 then some s.push_de
  else if opcode = 0xe5 then some s.push_hl
  else if opcode = 0xf5 then some s.push_af
  else if opcode = 0xc1 then some s.pop_bc
  else if opcode = 0xd1 then some s.pop_de
  else if opcode = 0xe1 then some s.pop_hl
  else if opcode = 0xf1 then some s.pop_af
  else if opcode = 0xc2 ∨ opcode = 0xd2 ∨ opcode = 0xca ∨ opcode = 0xda then
    some (s.jp_cc_d8 reg2)
  else if opcode = 0xc3 then some s.jp_d16
  else if opcode = 0xe9 then some s.jp_hl
  else if opcode = 0x20 ∨ opcode = 0x30 ∨ opcode = 0x28 ∨ opcode = 0x38 then
    some (s.jr_cc_d8 (reg2 - 4))
  else if opcode = 0x18 then some s.jr_d8
  else if opcode = 0x07 then some s.rlca
  else if opcode = 0x17 then some s.rla
  else if opcode = 0x0f then some s.rrca
  else if opcode = 0x1f then some s.rra
  else if opcode = 0x09 ∨ opcode = 0x19 ∨ opcode = 0x29 ∨ opcode = 0x39 then
    some (s.add_hl_r16 (opcode >>> 4))
  else if opcode = 0xe8 then some s.add_sp_d8
  else if opcode = 0xf8 then some s.ld_hl_sp_d8
  else if 0x80 ≤ opcode ∧ opcode ≤ 0x87 then some (s.add_r8 reg)
  else if 0x88 ≤ opcode ∧ opcode ≤ 0x8f then some (s.adc_r8 reg)
  else if 0x90 ≤ opcode ∧ opcode ≤ 0x97 then some (s.sub_r8 reg)
  else if 0x98 ≤ opcode ∧ opcode ≤ 0x9f then some (s.sbc_r8 reg)
  else if 0xa0 ≤ opcode ∧ opcode ≤ 0xa7 then some (s.and_r8 reg)
  else if 0xb0 ≤ opcode ∧ opcode ≤ 0xb7 then some (s.or_r8 reg)
  else if 0xa8 ≤ opcode ∧ opcode ≤ 0xaf then some (s.xor_r8 reg)
  else if 0xb8 ≤ opcode ∧ opcode ≤ 0xbf then some (s.cp_r8 reg)
  else if opcode = 0x27 then some s.daa
  else if opcode = 0x2f then some s.cpl
  else if opcode = 0x37 then some s.scf
  else if opcode = 0x3f then some s.ccf
  else if opcode = 0xc6 then some s.add_d8
  else if opcode = 0xd6 then some s.sub_d8
  else if opcode = 0xe6 then some s.and_d8
  else if opcode = 0xf6 then some s.or_d8
  else if opcode = 0xce then some s.adc_d8
  else if opcode = 0xde then some s.sbc_d8
  else if opcode = 0xee then some s.xor_d8
  else if opcode = 0xfe then some s.cp_d8
  else if opcode = 0x22 then some s.ldi_hl_a
  else if opcode = 0x32 then some s.ldd_hl_a
  else if opcode = 0x2a then some s.ldi_a_hl
  else if opcode = 0x3a then some s.ldd_a_hl
  else if opcode = 0xe0 then some s.ld_io_d8_a
  else if opcode = 0xf0 then some s.ld_a_io_d8
  else if opcode = 0xe2 then some s.ld_io_c_a
  else if opcode = 0xf2 then some s.ld_a_io_c
  else if opcode = 0x06 ∨ opcode = 0x0e ∨ opcode = 0x16 ∨ opcode = 0x1e ∨
      opcode = 0x26 ∨ opcode = 0x2e ∨ opcode = 0x36 ∨ opcode = 0x3e then
    some (s.ld_r8_d8 reg2)
  else if opcode = 0x04 ∨ opcode = 0x0c ∨ opcode = 0x14 ∨ opcode = 0x1c ∨
      opcode = 0x24 ∨ opcode = 0x2c ∨ opcode = 0x34 ∨ opcode = 0x3c then
    some (s.inc_r8 reg2)
  else if opcode = 0x05 ∨ opcode = 0x0d ∨ opcode = 0x15 ∨ opcode = 0x1d ∨
      opcode = 0x25 ∨ opcode = 0x2d ∨ opcode = 0x35 ∨ opcode = 0x3d then
    some (s.dec_r8 reg2)
  else if (0x40 ≤ opcode ∧ opcode ≤ 0x75) ∨ (0x77 ≤ opcode ∧ opcode ≤ 0x7f) then
    some (s.ld_r8_r8 reg2 reg)
  else if opcode = 0xea then some s.ld_ind_d16_a
  else if opcode = 0xfa then some s.ld_a_ind_d16
  else if opcode = 0x03 ∨ opcode = 0x13 ∨ opcode = 0x23 ∨ opcode = 0x33 then
    some (s.inc_r16 (opcode >>> 4))
  else if opcode = 0x0b ∨ opcode = 0x1b ∨ opcode = 0x2b ∨ opcode = 0x3b then
    some (s.dec_r16 (opcode >>> 4))
  else if opcode = 0xcd then some s.call_d16
  else if opcode = 0xc4 ∨ opcode = 0xd4 ∨ opcode = 0xcc ∨ opcode = 0xdc then
    some (s.call_cc_d16 reg2)
  else if opcode = 0xc9 then some s.ret
  else if opcode = 0xc0 ∨ opcode = 0xd0 ∨ opcode = 0xc8 ∨ opcode = 0xd8 then
    some (s.ret_cc reg2)
  else if opcode = 0xd9 then some s.reti
  else if opcode = 0xc7 ∨ opcode = 0xcf ∨ opcode = 0xd7 ∨ opcode = 0xdf ∨
      opcode = 0xe7 ∨ opcode = 0xef ∨ opcode = 0xf7 ∨ opcode = 0xff then
    some (s.rst (opcode - 0xc7))
  else if opcode = 0xf3 then some s.di
  else if opcode = 0xfb then some s.ei
  else if opcode = 0xcb then some s.cbPrefixed
  else if opcode = 0x76 then some s.halt
  else none

/-- `CPU::call_isr`: clear the IF bit, IME and the halt latch, spend 8
extra ticks, then CALL the vector from the source's table (note the
source maps ids 3 and 4 to 0x80 and 0x70). -/
def call_isr (s : CPU) (id : Nat) : CPU :=
  let s := { s with mmu := { s.mmu with int_flag := s.mmu.int_flag &&& (0xff ^^^ (1 <<< id)) } }
  let s := { s with ime := false }
  let s := { s with halted := false }
  let isr : Nat :=
    if id = 0 then 0x40
    else if id = 1 then 0x48
    else if id = 2 then 0x50
    else if id = 3 then 0x80
    else if id = 4 then 0x70
    else 0
  let s := { s with tick := s.tick + 8 }
  s._call isr

/-- Loop of `CPU::check_irqs` (`for i in 0..5`, `break` after the first
dispatched interrupt). -/
def check_irqs_go (s : CPU) (i fuel : Nat) : CPU :=
  match fuel with
  | 0 => s
  | fuel + 1 =>
    let irq := s.mmu.int_flag &&& (1 <<< i) > 0
    let ie := s.mmu.int_enable &&& (1 <<< i) > 0
    if irq ∧ ie then s.call_isr i
    else check_irqs_go s (i + 1) fuel

/-- `CPU::check_irqs`. -/
def check_irqs (s : CPU) : CPU := check_irqs_go s 0 5

/-- `CPU::step`: run one instruction (or a halted cycle), update the
MMU, then dispatch at most one interrupt; returns the consumed T-cycles
with the new state, or `none` if the instruction decoder panicked. -/
def step (s : CPU) : Option (Nat × CPU) :=
  let s := { s with tick := 0 }
  let os := if s.halted then some { s with tick := s.tick + 4 } else s.fetch_and_exec
  match os with
  | none => none
  | some s =>
    let total_tick := s.tick
    let s := { s with mmu := s.mmu.update s.tick }
    if s.ime then
      let s := { s with tick := 0 }
      let s := s.check_irqs
      let s := { s with mmu := s.mmu.update s.tick }
      some (total_tick + s.tick, s)
    else
      some (total_tick, s)

end CPU

/-! ## Reset states (`Timer::new`, `Joypad::new`, `MMU::new`, `CPU::new`) -/

/-- `Timer::new`. -/
def Timer.new : Timer :=
  { div := 0, tima := 0, tma := 0, tac := 0, counter := 0, counter_prev := 0 }

/-- `Joypad.new`. -/
def Joypad.new : Joypad :=
  { joyp := 0xff, key_state := 0xff, irq := false }

/-- A concrete cartridge state (the register fields as `Catridge::new`
initialises them, with an all-zero 32 KiB ROM image); used in witnesses. -/
def Catridge.sample : Catridge :=
  { rom := fun _ => 0, ram := fun _ => 0, mbc_type := 0, ram_enable := false,
    bank_no_upper := 0, bank_no_lower := 0, num_rom_banks := 2, mode := false }

/-- `MMU::new`, parametrised by the loaded cartridge. -/
def MMU.new (cart : Catridge) : MMU :=
  { catridge := cart, ram := fun _ => 0, hram := fun _ => 0, joypad := Joypad.new,
    timer := Timer.new, ppu := PPU.new, int_flag := 0, int_enable := 0 }

/-- `CPU::new`, parametrised by the loaded cartridge: PC = 0x100, all
other registers zero, IME false, halt false. -/
def CPU.new (cart : Catridge) : CPU :=
  { mmu := MMU.new cart, pc := 0x100, sp := 0, a := 0, f := 0, b := 0, c := 0,
    d := 0, e := 0, h := 0, l := 0, ime := false, tick := 0, halted := false }

/-! ## Generic bit-level helper lemmas -/

theorem and_or_distrib_mask (x y m : Nat) : (x ||| y) &&& m = (x &&& m) ||| (y &&& m) := by
  apply Nat.eq_of_testBit_eq
  intro i
  simp [Nat.testBit_and, Nat.testBit_or, Bool.and_or_distrib_right]

theorem shiftLeft_and_low (b k m : Nat) (hm : m < 2 ^ k) : (b <<< k) &&& m = 0 := by
  apply Nat.eq_of_testBit_eq
  intro i
  simp only [Nat.testBit_and, Nat.testBit_shiftLeft, Nat.zero_testBit, Bool.and_eq_false_iff]
  by_cases hik : k ≤ i
  · right
    apply Nat.testBit_lt_two_pow
    exact lt_of_lt_of_le hm (Nat.pow_le_pow_right (by norm_num) hik)
  · left
    simp [hik]

/-! ## The PPU's `dma` register is never written through the bus -/

theorem PPU.dma_update_mode_interrupt (p : PPU) : p.update_mode_interrupt.dma = p.dma := by
  simp [PPU.update_mode_interrupt, apply_ite PPU.dma]

theorem PPU.dma_update_lyc_interrupt (p : PPU) : p.update_lyc_interrupt.dma = p.dma := by
  simp [PPU.update_lyc_interrupt, apply_ite PPU.dma]

theorem PPU.dma_write (p : PPU) (a v : Nat) : (p.write a v).dma = p.dma := by
  simp [PPU.write, apply_ite PPU.dma, PPU.dma_update_mode_interrupt,
    PPU.dma_update_lyc_interrupt]

theorem MMU.dma_write1 (m : MMU) (a v : Nat) : (m.write1 a v).ppu.dma = m.ppu.dma := by
  simp [MMU.write1, apply_ite MMU.ppu, apply_ite PPU.dma, PPU.dma_write]

theorem MMU.dma_do_dma_go (m : MMU) (src dst : Nat) :
    ∀ n, (MMU.do_dma_go m src dst n).ppu.dma = m.ppu.dma := by
  intro n
  induction n with
  | zero => rfl
  | succ n ih =>
    unfold MMU.do_dma_go
    rw [MMU.dma_write1, ih]

/-- C10: a bus read of 0xFF46 always returns 0xFF — the MMU read
decoder has no case for 0xFF46 (it falls through to the unmapped-hole
default), and no bus write ever stores a value into the PPU's `dma`
register. -/
theorem C10_ff46_reads_ff :
    (∀ m : MMU, m.read 0xff46 = 0xff) ∧
    (∀ (m : MMU) (addr val : Nat), (m.write addr val).ppu.dma = m.ppu.dma) := by
  constructor
  · intro m
    rfl
  · intro m addr val
    simp [MMU.write, MMU.do_dma, apply_ite MMU.ppu, apply_ite PPU.dma,
      MMU.dma_do_dma_go, MMU.dma_write1]

/-! ## C3: which DMA source values abort -/

/-- C3 counterexample: the claim says a write to 0xFF46 aborts exactly
when V > 0xDF, but the source also aborts for V = 0x42 (`val < 0x80`). -/
theorem C3_counterexample : MMU.do_dma_aborts 0x42 = true ∧ ¬ (0x42 : Nat) > 0xdf := by
  decide

/-- C3 (amended): a write of V to 0xFF46 aborts exactly when V < 0x80
or V > 0xDF; every V in [0x80, 0xDF] is accepted and starts the
160-byte OAM copy. -/
theorem C3_dma_abort_range (V : Nat) (m : MMU) (hV : V < 256) :
    (MMU.do_dma_aborts V = true ↔ (V < 0x80 ∨ 0xdf < V)) ∧
    (0x80 ≤ V ∧ V ≤ 0xdf → m.do_dma V = MMU.do_dma_go m (V <<< 8) 0xfe00 0xa0) := by
  constructor
  · simp [MMU.do_dma_aborts]
  · intro hacc
    unfold MMU.do_dma
    rw [if_neg]
    simp only [MMU.do_dma_aborts, Bool.or_eq_true, decide_eq_true_eq, not_or]
    omega

theorem C3_dma_abort_range_witness :
    (0xc0 : Nat) < 256 ∧
    ((MMU.do_dma_aborts 0xc0 = true ↔ ((0xc0 : Nat) < 0x80 ∨ 0xdf < (0xc0 : Nat))) ∧
      ((0x80 : Nat) ≤ 0xc0 ∧ (0xc0 : Nat) ≤ 0xdf →
        (MMU.new Catridge.sample).do_dma 0xc0 =
          MMU.do_dma_go (MMU.new Catridge.sample) (0xc0 <<< 8) 0xfe00 0xa0)) :=
  ⟨by decide, C3_dma_abort_range 0xc0 (MMU.new Catridge.sample) (by decide)⟩

/-! ## C4: range of the effective MBC1 ROM bank number -/

/-- The quirked bank number always has a nonzero low five bits, for any
7-bit raw bank number. -/
theorem quirk_low5_ne_zero :
    ∀ b0 < 0x80,
      (if b0 = 0 ∨ b0 = 0x20 ∨ b0 = 0x40 ∨ b0 = 0x60 then b0 + 1 else b0) % 32 ≠ 0 := by
  decide

/-- C4 counterexample cartridge: a 4-bank ROM with `bank_lo = 4`. -/
def c4cart : Catridge :=
  { Catridge.sample with bank_no_lower := 4, num_rom_banks := 4 }

/-- C4 counterexample: on a 4-bank ROM (`num_rom_banks = 2^2`) with
`bank_lo = 4`, `bank_hi = 0`, `mode = false`, the effective ROM bank is
0 — outside the claimed interval [1, num_rom_banks − 1]. -/
theorem C4_counterexample :
    c4cart.bank_no_lower < 0x20 ∧ c4cart.bank_no_upper < 4 ∧
    c4cart.num_rom_banks = 2 ^ 2 ∧ c4cart.rom_bank_no = 0 := by
  decide

/-- Reducing modulo a larger power of two keeps a number with nonzero
low five bits nonzero. -/
theorem mask_pos_of_low5 (b1 k : Nat) (hk5 : 5 ≤ k) (h5 : b1 % 32 ≠ 0) :
    1 ≤ b1 % 2 ^ k := by
  rcases Nat.eq_zero_or_pos (b1 % 2 ^ k) with h0 | h1
  · exfalso
    apply h5
    have hdb : (2 ^ k : Nat) ∣ b1 := Nat.dvd_iff_mod_eq_zero.mpr h0
    have h32k : (32 : Nat) ∣ 2 ^ k := by
      have := pow_dvd_pow 2 hk5
      norm_num at this
      exact this
    exact Nat.dvd_iff_mod_eq_zero.mp (h32k.trans hdb)
  · omega

/-- C4 (amended): the effective ROM bank lies in [0, num_rom_banks − 1],
and it is nonzero whenever num_rom_banks ≥ 32 (the mask then keeps the
low five bits, which the 0/0x20/0x40/0x60 → +1 quirk makes nonzero);
smaller ROMs can mask the bank to 0. -/
theorem C4_rom_bank_range (c : Catridge) (k : Nat) (hlo : c.bank_no_lower < 0x20)
    (hhi : c.bank_no_upper < 4) (hk : 1 ≤ k) (hN : c.num_rom_banks = 2 ^ k) :
    c.rom_bank_no ≤ c.num_rom_banks - 1 ∧ (32 ≤ c.num_rom_banks → 1 ≤ c.rom_bank_no) := by
  have hNpos : 0 < 2 ^ k := pow_pos (by norm_num) k
  unfold Catridge.rom_bank_no
  rw [hN, Nat.and_pow_two_sub_one_eq_mod]
  constructor
  · have := Nat.mod_lt
      (if (if c.mode then c.bank_no_lower else c.bank_no_upper <<< 5 ||| c.bank_no_lower) = 0 ∨
          (if c.mode then c.bank_no_lower else c.bank_no_upper <<< 5 ||| c.bank_no_lower) = 0x20 ∨
          (if c.mode then c.bank_no_lower else c.bank_no_upper <<< 5 ||| c.bank_no_lower) = 0x40 ∨
          (if c.mode then c.bank_no_lower else c.bank_no_upper <<< 5 ||| c.bank_no_lower) = 0x60
        then (if c.mode then c.bank_no_lower else c.bank_no_upper <<< 5 ||| c.bank_no_lower) + 1
        else if c.mode then c.bank_no_lower else c.bank_no_upper <<< 5 ||| c.bank_no_lower)
      hNpos
    omega
  · intro h32
    have hk5 : 5 ≤ k := by
      by_contra hlt
      push_neg at hlt
      interval_cases k <;> norm_num at h32
    have hb0 : (if c.mode then c.bank_no_lower else c.bank_no_upper <<< 5 ||| c.bank_no_lower)
        < 0x80 := by
      cases hm : c.mode with
      | true => simp only [hm, if_true]; omega
      | false =>
        simp only [hm, Bool.false_eq_true, if_false]
        have h1 : c.bank_no_upper <<< 5 < 2 ^ 7 := by
          rw [Nat.shiftLeft_eq]
          omega
        have h2 : c.bank_no_lower < 2 ^ 7 := by omega
        simpa using Nat.or_lt_two_pow h1 h2
    exact mask_pos_of_low5 _ k hk5 (quirk_low5_ne_zero _ hb0)

/-! ## C7: timer overflow reload and IRQ -/

theorem and_mask_or_self (x m : Nat) : (x &&& m) ||| m = m := by
  apply Nat.eq_of_testBit_eq
  intro i
  simp only [Nat.testBit_or, Nat.testBit_and]
  cases x.testBit i <;> cases m.testBit i <;> rfl

theorem or4_and4 (x : Nat) : (x ||| 4) &&& 4 = 4 := by
  rw [and_or_distrib_mask]
  simpa using and_mask_or_self x 4

theorem or_keep4 (x y : Nat) (h : x &&& 4 = 4) : (x ||| y) &&& 4 = 4 := by
  rw [and_or_distrib_mask, h]
  have := and_mask_or_self y 4
  rw [Nat.lor_comm] at this
  exact this

/-- `MMU::update` stores exactly the state `Timer::update` returns. -/
theorem MMU.timer_update (m : MMU) (t : Nat) :
    (m.update t).timer = (m.timer.update t).1 := by
  simp [MMU.update, apply_ite MMU.timer]

/-- When `Timer::update` reports an overflow, `MMU::update` sets IF
bit 2. -/
theorem MMU.int_flag_bit2 (m : MMU) (t : Nat) (h : (m.timer.update t).2 = true) :
    (m.update t).int_flag &&& 4 = 4 := by
  simp only [MMU.update, h, if_true]
  simp only [apply_ite MMU.int_flag, apply_ite MMU.ppu, apply_ite PPU.irq_lcdc,
    apply_ite MMU.joypad, apply_ite Joypad.irq, ite_self]
  split
  · exact or_keep4 _ _ (or4_and4 _)
  · exact or4_and4 _

/-- The timer state of boundary scenario 5: TAC=0x05, TIMA=0xFF,
TMA=0xA0, internal counter and snapshot 0. -/
def timerC7 : Timer :=
  { div := 0, tima := 0xff, tma := 0xa0, tac := 0x05, counter := 0, counter_prev := 0 }

/-- C7: from TAC=0x05 (enabled, divider 16), TIMA=0xFF, TMA=0xA0 and a
zero internal counter, an update covering 16 T-cycles reloads TIMA with
0xA0 and the raised timer IRQ becomes IF bit 2 after MMU aggregation. -/
theorem C7_timer_overflow (m : MMU) (h : m.timer = timerC7) :
    (m.update 16).timer.tima = 0xa0 ∧ (m.update 16).int_flag &&& 0x4 = 0x4 := by
  have htu : m.timer.update 16 =
      ({ timerC7 with tima := 0xa0, counter := 16, counter_prev := 16 }, true) := by
    rw [h]
    rfl
  constructor
  · rw [MMU.timer_update, htu]
  · exact MMU.int_flag_bit2 m 16 (by rw [htu])

theorem C7_timer_overflow_witness :
    ({ MMU.new Catridge.sample with timer := timerC7 } : MMU).timer = timerC7 ∧
    (({ MMU.new Catridge.sample with timer := timerC7 } : MMU).update 16).timer.tima = 0xa0 ∧
    (({ MMU.new Catridge.sample with timer := timerC7 } : MMU).update 16).int_flag &&& 0x4 =
      0x4 :=
  ⟨rfl, C7_timer_overflow { MMU.new Catridge.sample with timer := timerC7 } rfl⟩

/-! ## C8: mode-machine projection of the PPU -/

/-- Two PPU states agree on everything the LCD mode machine reads or
writes (the scanline renderer only touches the pixel buffers). -/
def modeEq (p q : PPU) : Prop :=
  p.lcdc = q.lcdc ∧ p.stat = q.stat ∧ p.ly = q.ly ∧ p.lyc = q.lyc ∧
  p.counter = q.counter ∧ p.irq_vblank = q.irq_vblank ∧ p.irq_lcdc = q.irq_lcdc

theorem modeEq_refl (p : PPU) : modeEq p p := ⟨rfl, rfl, rfl, rfl, rfl, rfl, rfl⟩

theorem modeEq_trans {p q r : PPU} (h1 : modeEq p q) (h2 : modeEq q r) : modeEq p r := by
  obtain ⟨a1, b1, c1, d1, e1, f1, g1⟩ := h1
  obtain ⟨a2, b2, c2, d2, e2, f2, g2⟩ := h2
  exact ⟨a1.trans a2, b1.trans b2, c1.trans c2, d1.trans d2, e1.trans e2,
    f1.trans f2, g1.trans g2⟩

theorem modeEq_render_bg_go :
    ∀ (n : Nat) (p : PPU) (tx ty ox oy : Nat) (tile : Nat × Nat) (w : Bool) (x : Nat),
      modeEq (PPU.render_bg_go p tx ty ox oy tile w x n) p := by
  intro n
  induction n with
  | zero => intro p tx ty ox oy tile w x; exact modeEq_refl p
  | succ n ih =>
    intro p tx ty ox oy tile w x
    unfold PPU.render_bg_go
    split
    all_goals
      dsimp only
      split
      all_goals exact modeEq_trans (ih _ _ _ _ _ _ _ _) ⟨rfl, rfl, rfl, rfl, rfl, rfl, rfl⟩

theorem modeEq_render_sprite_pixels :
    ∀ (n : Nat) (p : PPU) (tile : Nat × Nat) (sx : Nat) (fx op : Bool) (pal ox : Nat),
      modeEq (PPU.render_sprite_pixels p tile sx fx op pal ox n) p := by
  intro n
  induction n with
  | zero => intro p tile sx fx op pal ox; exact modeEq_refl p
  | succ n ih =>
    intro p tile sx fx op pal ox
    unfold PPU.render_sprite_pixels
    dsimp only
    repeat' split
    all_goals
      first
        | exact modeEq_refl p
        | exact modeEq_trans (ih _ _ _ _ _ _ _) (modeEq_refl p)

theorem modeEq_render_sprites_go :
    ∀ (n : Nat) (p : PPU) (h ns i : Nat),
      modeEq (PPU.render_sprites_go p h ns i n) p := by
  intro n
  induction n with
  | zero => intro p h ns i; exact modeEq_refl p
  | succ n ih =>
    intro p h ns i
    unfold PPU.render_sprites_go
    dsimp only
    repeat' split
    all_goals
      first
        | exact modeEq_refl p
        | exact modeEq_trans (ih _ _ _ _) (modeEq_refl p)
        | exact modeEq_trans (ih _ _ _ _) (modeEq_render_sprite_pixels _ _ _ _ _ _ _ _)

theorem modeEq_copy_scanline_go :
    ∀ (n : Nat) (p : PPU) (x : Nat), modeEq (PPU.copy_scanline_go p x n) p := by
  intro n
  induction n with
  | zero => intro p x; exact modeEq_refl p
  | succ n ih =>
    intro p x
    unfold PPU.copy_scanline_go
    exact modeEq_trans (ih _ _) ⟨rfl, rfl, rfl, rfl, rfl, rfl, rfl⟩

theorem modeEq_render_bg (p : PPU) : modeEq p.render_bg p := by
  unfold PPU.render_bg
  exact modeEq_render_bg_go _ _ _ _ _ _ _ _ _

theorem modeEq_render_sprites (p : PPU) : modeEq p.render_sprites p := by
  unfold PPU.render_sprites
  exact modeEq_render_sprites_go _ _ _ _ _

theorem modeEq_render_scanline (p : PPU) : modeEq p.render_scanline p := by
  unfold PPU.render_scanline
  refine modeEq_trans (modeEq_copy_scanline_go _ _ _) ?_
  repeat' split
  all_goals
    first
      | exact modeEq_trans (modeEq_render_sprites _) (modeEq_render_bg p)
      | exact modeEq_trans (modeEq_render_sprites _) (modeEq_refl p)
      | exact modeEq_render_bg p
      | exact modeEq_refl p

/-- STAT (mode bits) of the frame run after `t` T-cycles. -/
def ppuCanonStat (t : Nat) : Nat :=
  if t = 65664 then 1
  else if t % 456 < 80 then 2
  else if t % 456 < 252 then 3
  else 0

/-- Mode counter of the frame run after `t` T-cycles. -/
def ppuCanonCounter (t : Nat) : Nat :=
  if t = 65664 then 0
  else if t % 456 < 80 then t % 456
  else if t % 456 < 252 then t % 456 - 80
  else t % 456 - 252

/-- LY of the frame run after `t` T-cycles. -/
def ppuCanonLy (t : Nat) : Nat := if t = 65664 then 144 else t / 456

/-- The PPU is `t` T-cycles into the first frame of a clean LCD-on run
(LCDC = 0x80, LYC = 0): its STAT, mode counter, LY and IRQ latches are
the canonical ones for time `t ≤ 65664`. -/
def PPUFrame (p : PPU) (t : Nat) : Prop :=
  p.lcdc = 0x80 ∧ p.lyc = 0 ∧ p.stat = ppuCanonStat t ∧ p.counter = ppuCanonCounter t ∧
  p.ly = ppuCanonLy t ∧ p.irq_vblank = decide (t = 65664) ∧ p.irq_lcdc = false

theorem uli_ne (p : PPU) (h : ¬ p.ly = p.lyc) :
    p.update_lyc_interrupt = { p with stat := p.stat &&& 0xfb } := by
  unfold PPU.update_lyc_interrupt
  rw [if_neg h]

theorem umi_none (p : PPU) (h0 : ¬(p.stat &&& 3 = 0 ∧ p.stat &&& 8 > 0))
    (h1 : ¬(p.stat &&& 3 = 1 ∧ p.stat &&& 0x10 > 0))
    (h2 : ¬(p.stat &&& 3 = 2 ∧ p.stat &&& 0x20 > 0)) :
    p.update_mode_interrupt = p := by
  unfold PPU.update_mode_interrupt
  rw [if_neg h0, if_neg h1, if_neg h2]

/-- One `update` call of at most 24 ticks advances the canonical frame
state from time `t` to time `t + d`. -/
theorem PPUFrame_step (p : PPU) (t d : Nat) (hp : PPUFrame p t) (hd : d ≤ 24)
    (ht : t + d ≤ 65664) : PPUFrame (p.update d) (t + d) := by
  obtain ⟨hlcdc, hlyc, hstat, hcounter, hly, hvb, hlc⟩ := hp
  by_cases h65 : t = 65664
  · -- V-Blank has been reached: only d = 0 is possible, nothing moves
    subst h65
    have hd0 : d = 0 := by omega
    subst hd0
    have hstat2 : p.stat = 1 := by rw [hstat]; decide
    have hcounter2 : p.counter = 0 := by rw [hcounter]; decide
    have hly2 : p.ly = 144 := by rw [hly]; decide
    have hvb2 : p.irq_vblank = true := by rw [hvb]; decide
    unfold PPU.update
    rw [hlcdc, if_neg (by decide)]
    dsimp only
    rw [hstat2, hcounter2, hly2, hvb2, hlc, hlyc]
    rw [if_neg (by decide), if_neg (by decide), if_neg (by decide), if_neg (by decide)]
    refine ⟨rfl, rfl, ?_, ?_, ?_, ?_, rfl⟩
    · show (1 : Nat) = ppuCanonStat (65664 + 0)
      decide
    · show ((0 + 0) % 65536 : Nat) = ppuCanonCounter (65664 + 0)
      decide
    · show (144 : Nat) = ppuCanonLy (65664 + 0)
      decide
    · show (true : Bool) = decide (65664 + 0 = 65664)
      decide
  · have hlt : t < 65664 := by omega
    have hq : t / 456 ≤ 143 := by omega
    have hvb2 : p.irq_vblank = false := by rw [hvb]; exact decide_eq_false h65
    have hly2 : p.ly = t / 456 := by
      rw [hly]; unfold ppuCanonLy; rw [if_neg h65]
    rcases Nat.lt_or_ge (t % 456) 80 with hA | hBC
    · -- OAM search (mode 2)
      have hstat2 : p.stat = 2 := by
        rw [hstat]; unfold ppuCanonStat; rw [if_neg h65, if_pos hA]
      have hcounter2 : p.counter = t % 456 := by
        rw [hcounter]; unfold ppuCanonCounter; rw [if_neg h65, if_pos hA]
      have hne' : t + d ≠ 65664 := by omega
      unfold PPU.update
      rw [hlcdc, if_neg (by decide)]
      dsimp only
      rw [hstat2, hcounter2, hly2, hvb2, hlc, hlyc]
      rw [if_pos (by decide)]
      by_cases htr : 80 ≤ t % 456 + d
      · rw [if_pos (show (t % 456 + d) % 65536 ≥ 80 by omega)]
        refine ⟨?_, ?_, ?_, ?_, ?_, ?_, ?_⟩
        · exact ((modeEq_render_scanline _).1).trans rfl
        · exact ((modeEq_render_scanline _).2.2.2.1).trans rfl
        · refine ((modeEq_render_scanline _).2.1).trans ?_
          show (2 &&& 0xf8 ||| 3 : Nat) = ppuCanonStat (t + d)
          unfold ppuCanonStat
          rw [if_neg hne', if_neg (by omega), if_pos (by omega)]
          decide
        · refine ((modeEq_render_scanline _).2.2.2.2.1).trans ?_
          show (t % 456 + d) % 65536 - 80 = ppuCanonCounter (t + d)
          unfold ppuCanonCounter
          rw [if_neg hne', if_neg (by omega), if_pos (by omega)]
          omega
        · refine ((modeEq_render_scanline _).2.2.1).trans ?_
          show t / 456 = ppuCanonLy (t + d)
          unfold ppuCanonLy
          rw [if_neg hne']
          omega
        · refine ((modeEq_render_scanline _).2.2.2.2.2.1).trans ?_
          show (false : Bool) = decide (t + d = 65664)
          exact (decide_eq_false hne').symm
        · exact ((modeEq_render_scanline _).2.2.2.2.2.2).trans rfl
      · rw [if_neg (show ¬ (t % 456 + d) % 65536 ≥ 80 by omega)]
        refine ⟨rfl, rfl, ?_, ?_, ?_, ?_, rfl⟩
        · show (2 : Nat) = ppuCanonStat (t + d)
          unfold ppuCanonStat
          rw [if_neg hne', if_pos (by omega)]
        · show (t % 456 + d) % 65536 = ppuCanonCounter (t + d)
          unfold ppuCanonCounter
          rw [if_neg hne', if_pos (by omega)]
          omega
        · show t / 456 = ppuCanonLy (t + d)
          unfold ppuCanonLy
          rw [if_neg hne']
          omega
        · show (false : Bool) = decide (t + d = 65664)
          exact (decide_eq_false hne').symm
    rcases Nat.lt_or_ge (t % 456) 252 with hB | hC
    · -- pixel transfer (mode 3)
      have hstat2 : p.stat = 3 := by
        rw [hstat]; unfold ppuCanonStat; rw [if_neg h65, if_neg (by omega), if_pos hB]
      have hcounter2 : p.counter = t % 456 - 80 := by
        rw [hcounter]; unfold ppuCanonCounter; rw [if_neg h65, if_neg (by omega), if_pos hB]
      have hne' : t + d ≠ 65664 := by omega
      unfold PPU.update
      rw [hlcdc, if_neg (by decide)]
      dsimp only
      rw [hstat2, hcounter2, hly2, hvb2, hlc, hlyc]
      rw [if_neg (by decide), if_pos (by decide)]
      by_cases htr : 252 ≤ t % 456 + d
      · rw [if_pos (show (t % 456 - 80 + d) % 65536 ≥ 172 by omega)]
        unfold PPU.update_mode_interrupt
        dsimp only
        rw [if_neg (by decide), if_neg (by decide), if_neg (by decide)]
        refine ⟨rfl, rfl, ?_, ?_, ?_, ?_, rfl⟩
        · show (3 &&& 0xf8 : Nat) = ppuCanonStat (t + d)
          unfold ppuCanonStat
          rw [if_neg hne', if_neg (by omega), if_neg (by omega)]
          decide
        · show (t % 456 - 80 + d) % 65536 - 172 = ppuCanonCounter (t + d)
          unfold ppuCanonCounter
          rw [if_neg hne', if_neg (by omega), if_neg (by omega)]
          omega
        · show t / 456 = ppuCanonLy (t + d)
          unfold ppuCanonLy
          rw [if_neg hne']
          omega
        · show (false : Bool) = decide (t + d = 65664)
          exact (decide_eq_false hne').symm
      · rw [if_neg (show ¬ (t % 456 - 80 + d) % 65536 ≥ 172 by omega)]
        refine ⟨rfl, rfl, ?_, ?_, ?_, ?_, rfl⟩
        · show (3 : Nat) = ppuCanonStat (t + d)
          unfold ppuCanonStat
          rw [if_neg hne', if_neg (by omega), if_pos (by omega)]
        · show (t % 456 - 80 + d) % 65536 = ppuCanonCounter (t + d)
          unfold ppuCanonCounter
          rw [if_neg hne', if_neg (by omega), if_pos (by omega)]
          omega
        · show t / 456 = ppuCanonLy (t + d)
          unfold ppuCanonLy
          rw [if_neg hne']
          omega
        · show (false : Bool) = decide (t + d = 65664)
          exact (decide_eq_false hne').symm
    · -- H-Blank (mode 0)
      have hstat2 : p.stat = 0 := by
        rw [hstat]; unfold ppuCanonStat; rw [if_neg h65, if_neg (by omega), if_neg (by omega)]
      have hcounter2 : p.counter = t % 456 - 252 := by
        rw [hcounter]; unfold ppuCanonCounter; rw [if_neg h65, if_neg (by omega), if_neg (by omega)]
      unfold PPU.update
      rw [hlcdc, if_neg (by decide)]
      dsimp only
      rw [hstat2, hcounter2, hly2, hvb2, hlc, hlyc]
      rw [if_neg (by decide), if_neg (by decide), if_pos (by decide)]
      by_cases htr : 456 ≤ t % 456 + d
      · rw [if_pos (show (t % 456 - 252 + d) % 65536 ≥ 204 by omega)]
        by_cases hq143 : t / 456 = 143
        · -- transition into V-Blank at exactly t + d = 65664
          have ht65 : t + d = 65664 := by omega
          rw [if_pos (show (t / 456 + 1) % 256 ≥ 144 by omega)]
          unfold PPU.update_lyc_interrupt
          dsimp only
          rw [if_neg (show ¬ (t / 456 + 1) % 256 = 0 by omega)]
          unfold PPU.update_mode_interrupt
          dsimp only
          rw [if_neg (by decide), if_neg (by decide), if_neg (by decide)]
          refine ⟨rfl, rfl, ?_, ?_, ?_, ?_, rfl⟩
          · show ((0 &&& 0xf8 ||| 1) &&& 0xfb : Nat) = ppuCanonStat (t + d)
            rw [ht65]
            decide
          · show (t % 456 - 252 + d) % 65536 - 204 = ppuCanonCounter (t + d)
            rw [ht65]
            unfold ppuCanonCounter
            rw [if_pos rfl]
            omega
          · show (t / 456 + 1) % 256 = ppuCanonLy (t + d)
            rw [ht65]
            unfold ppuCanonLy
            rw [if_pos rfl]
            omega
          · show (true : Bool) = decide (t + d = 65664)
            rw [ht65]
            decide
        · -- next scanline, back to OAM search
          have hne' : t + d ≠ 65664 := by omega
          rw [if_neg (show ¬ (t / 456 + 1) % 256 ≥ 144 by omega)]
          unfold PPU.update_lyc_interrupt
          dsimp only
          rw [if_neg (show ¬ (t / 456 + 1) % 256 = 0 by omega)]
          unfold PPU.update_mode_interrupt
          dsimp only
          rw [if_neg (by decide), if_neg (by decide), if_neg (by decide)]
          refine ⟨rfl, rfl, ?_, ?_, ?_, ?_, rfl⟩
          · show ((0 &&& 0xf8 ||| 2) &&& 0xfb : Nat) = ppuCanonStat (t + d)
            unfold ppuCanonStat
            rw [if_neg hne', if_pos (by omega)]
            decide
          · show (t % 456 - 252 + d) % 65536 - 204 = ppuCanonCounter (t + d)
            unfold ppuCanonCounter
            rw [if_neg hne', if_pos (by omega)]
            omega
          · show (t / 456 + 1) % 256 = ppuCanonLy (t + d)
            unfold ppuCanonLy
            rw [if_neg hne']
            omega
          · show (false : Bool) = decide (t + d = 65664)
            exact (decide_eq_false hne').symm
      · have hne' : t + d ≠ 65664 := by omega
        rw [if_neg (show ¬ (t % 456 - 252 + d) % 65536 ≥ 204 by omega)]
        refine ⟨rfl, rfl, ?_, ?_, ?_, ?_, rfl⟩
        · show (0 : Nat) = ppuCanonStat (t + d)
          unfold ppuCanonStat
          rw [if_neg hne', if_neg (by omega), if_neg (by omega)]
        · show (t % 456 - 252 + d) % 65536 = ppuCanonCounter (t + d)
          unfold ppuCanonCounter
          rw [if_neg hne', if_neg (by omega), if_neg (by omega)]
          omega
        · show t / 456 = ppuCanonLy (t + d)
          unfold ppuCanonLy
          rw [if_neg hne']
          omega
        · show (false : Bool) = decide (t + d = 65664)
          exact (decide_eq_false hne').symm

/-- `PPU::new` is the canonical frame state at time 0. -/
theorem PPUFrame_new : PPUFrame PPU.new 0 := by
  refine ⟨rfl, rfl, ?_, ?_, ?_, ?_, rfl⟩ <;> decide

/-- Folding `update` over a tick list, each tick at most 24, tracks the
canonical frame timeline. -/
theorem PPUFrame_fold (l : List Nat) (p : PPU) (t : Nat) (hp : PPUFrame p t)
    (hle : ∀ d ∈ l, d ≤ 24) (hsum : t + l.sum ≤ 65664) :
    PPUFrame (l.foldl PPU.update p) (t + l.sum) := by
  induction l generalizing p t with
  | nil => simpa using hp
  | cons a l ih =>
    rw [List.sum_cons] at hsum
    have h1 : PPUFrame (p.update a) (t + a) :=
      PPUFrame_step p t a hp (hle a (by simp)) (by omega)
    have h2 := ih (p.update a) (t + a) h1 (fun d hd => hle d (by simp [hd])) (by omega)
    rw [List.foldl_cons, List.sum_cons, show t + (a + l.sum) = t + a + l.sum by omega]
    exact h2

/-- C8: from the PPU's clean LCD-on reset state, after any sequence of
`update` calls whose ticks are each at most 24 and sum to exactly 65664
T-cycles, LY is 144, the STAT mode bits are 1 (V-Blank), and
`irq_vblank` is raised — and it was still clear after every proper
prefix of the sequence, so it was raised by exactly one transition. -/
theorem C8_vblank_entry (l : List Nat) (hle : ∀ d ∈ l, d ≤ 24) (hsum : l.sum = 65664) :
    (l.foldl PPU.update PPU.new).ly = 144 ∧
    (l.foldl PPU.update PPU.new).stat &&& 3 = 1 ∧
    (l.foldl PPU.update PPU.new).irq_vblank = true ∧
    ∀ l1 l2 : List Nat, l = l1 ++ l2 → l1.sum < 65664 →
      (l1.foldl PPU.update PPU.new).irq_vblank = false := by
  obtain ⟨-, -, hstat, -, hly, hvb, -⟩ :=
    PPUFrame_fold l PPU.new 0 PPUFrame_new hle (by omega)
  rw [Nat.zero_add, hsum] at hstat hly hvb
  refine ⟨?_, ?_, ?_, ?_⟩
  · rw [hly]; decide
  · rw [hstat]; decide
  · rw [hvb]; decide
  · intro l1 l2 hsplit hlt
    obtain ⟨-, -, -, -, -, hvb1, -⟩ :=
      PPUFrame_fold l1 PPU.new 0 PPUFrame_new
        (fun d hd => hle d (by rw [hsplit]; exact List.mem_append_left _ hd)) (by omega)
    rw [Nat.zero_add] at hvb1
    rw [hvb1]
    exact decide_eq_false (by omega)

/-- Witness for C8: 2736 calls of 24 ticks each (2736 × 24 = 65664). -/
theorem C8_vblank_entry_witness :
    (∀ d ∈ List.replicate 2736 24, d ≤ 24) ∧ (List.replicate 2736 24).sum = 65664 ∧
    ((List.replicate 2736 24).foldl PPU.update PPU.new).irq_vblank = true := by
  have h1 : ∀ d ∈ List.replicate 2736 24, d ≤ 24 := by
    intro d hd
    rw [List.eq_of_mem_replicate hd]
  have h2 : (List.replicate 2736 24).sum = 65664 := by
    rw [List.sum_replicate]
    decide
  exact ⟨h1, h2, (C8_vblank_entry (List.replicate 2736 24) h1 h2).2.2.1⟩

/-! ## C5: which bits of IF can be set -/

theorem or_low_and_hi (x y m : Nat) (h : y &&& m = 0) : (x ||| y) &&& m = x &&& m := by
  rw [and_or_distrib_mask, h]
  exact Nat.or_zero _

/-- Byte-level facts about the 160 DMA bus addresses. -/
theorem dma_addr_facts :
    ∀ k < 0xa0,
      (0xfe00 ||| k) = 0xfe00 + k ∧ (0xc000 ||| k) = 0xc000 + k ∧
      ((0xc000 + k) &&& 0x1fff) = k ∧ ((0xfe00 + k) &&& 0xff) = k := by
  decide

set_option maxHeartbeats 2000000 in
theorem MMU.int_flag_write1_ne (m : MMU) (a v : Nat) (h : a ≠ 0xff0f) :
    (m.write1 a v).int_flag = m.int_flag := by
  unfold MMU.write1
  simp only [apply_ite MMU.int_flag]
  repeat' split
  all_goals omega

theorem MMU.int_flag_do_dma_go (m : MMU) (src : Nat) :
    ∀ n, n ≤ 0xa0 → (MMU.do_dma_go m src 0xfe00 n).int_flag = m.int_flag := by
  intro n
  induction n with
  | zero => intro _; rfl
  | succ n ih =>
    intro hn
    unfold MMU.do_dma_go
    rw [MMU.int_flag_write1_ne, ih (by omega)]
    have := (dma_addr_facts n (by omega)).1
    omega

theorem MMU.int_flag_do_dma (m : MMU) (v : Nat) : (m.do_dma v).int_flag = m.int_flag := by
  unfold MMU.do_dma
  split
  · rfl
  · exact MMU.int_flag_do_dma_go m _ 0xa0 (by norm_num)

/-- `MMU::update` only ORs the five low interrupt bits into IF. -/
theorem MMU.int_flag_update_hi (m : MMU) (t : Nat) :
    (m.update t).int_flag &&& 0xe0 = m.int_flag &&& 0xe0 := by
  simp only [MMU.update]
  simp only [apply_ite MMU.int_flag, apply_ite MMU.ppu, apply_ite PPU.irq_lcdc,
    apply_ite MMU.joypad, apply_ite Joypad.irq, ite_self]
  repeat' split
  all_goals repeat rw [or_low_and_hi _ _ _ (by decide)]
  all_goals rfl

/-- States reachable from reset by bus reads, `update` calls, and
writes that keep the three high bits clear when targeting 0xFF0F. -/
inductive MMUReach5 (cart : Catridge) : MMU → Prop where
  | base : MMUReach5 cart (MMU.new cart)
  | wr {m : MMU} (addr val : Nat) (hv : addr = 0xff0f → val &&& 0xe0 = 0)
      (hm : MMUReach5 cart m) : MMUReach5 cart (m.write addr val)
  | upd {m : MMU} (t : Nat) (hm : MMUReach5 cart m) : MMUReach5 cart (m.update t)

/-- C5 counterexample: a CPU write of 0xFF to 0xFF0F is stored unmasked,
so from reset one write already violates `IF & ~0x1F == 0`. -/
theorem C5_counterexample :
    ((MMU.new Catridge.sample).write 0xff0f 0xff).int_flag &&& 0xe0 ≠ 0 := by
  decide

/-- C5 (amended): `IF & ~0x1F == 0` holds in every state reachable from
reset by reads, updates, and writes — provided writes to 0xFF0F only
carry values whose three high bits are clear (the MMU stores the
written value unmasked, so unrestricted writes break the invariant). -/
theorem C5_int_flag_low_bits (cart : Catridge) (m : MMU) (h : MMUReach5 cart m) :
    m.int_flag &&& 0xe0 = 0 := by
  induction h with
  | base => simp [MMU.new]
  | wr addr val hv hm ih =>
    unfold MMU.write
    split
    · rw [MMU.int_flag_do_dma]
      exact ih
    · by_cases ha : addr = 0xff0f
      · subst ha
        have hval : ∀ m' : MMU, (m'.write1 0xff0f val).int_flag = val := fun _ => rfl
        rw [hval]
        exact hv rfl
      · rw [MMU.int_flag_write1_ne _ _ _ ha]
        exact ih
  | upd t hm ih =>
    rw [MMU.int_flag_update_hi]
    exact ih

theorem C5_int_flag_low_bits_witness :
    (MMU.new Catridge.sample).int_flag &&& 0xe0 = 0 :=
  C5_int_flag_low_bits Catridge.sample _ MMUReach5.base

/-! ## C2: the OAM DMA copy is observable through the bus -/

/-- Bus reads in 0xC000–0xDFFF hit work RAM. -/
theorem MMU.read_ram_range (m : MMU) (a : Nat) (h1 : 0xc000 ≤ a) (h2 : a ≤ 0xdfff) :
    m.read a = m.ram (a &&& 0x1fff) := by
  unfold MMU.read
  rw [if_neg (by omega), if_neg (by omega), if_neg (by omega), if_pos (by omega)]

/-- Bus reads in 0xFE00–0xFE9F are routed to the PPU. -/
theorem MMU.read_oam_range (m : MMU) (a : Nat) (h1 : 0xfe00 ≤ a) (h2 : a ≤ 0xfe9f) :
    m.read a = m.ppu.read a := by
  unfold MMU.read
  rw [if_neg (by omega), if_neg (by omega), if_neg (by omega), if_neg (by omega),
    if_neg (by omega), if_pos (by omega)]

/-- Bus writes in 0xFE00–0xFE9F are routed to the PPU. -/
theorem MMU.write1_oam_range (m : MMU) (a v : Nat) (h1 : 0xfe00 ≤ a) (h2 : a ≤ 0xfe9f) :
    m.write1 a v = { m with ppu := m.ppu.write a v } := by
  unfold MMU.write1
  rw [if_neg (by omega), if_neg (by omega), if_neg (by omega), if_neg (by omega),
    if_neg (by omega), if_pos (by omega)]

/-- An OAM write lands in the OAM array during H-Blank/V-Blank. -/
theorem PPU.write_oam_mode01 (p : PPU) (a v : Nat) (h1 : 0xfe00 ≤ a) (h2 : a ≤ 0xfe9f)
    (hmode : p.stat &&& 3 = 0 ∨ p.stat &&& 3 = 1) :
    p.write a v = { p with oam := upd p.oam (a &&& 0xff) v } := by
  unfold PPU.write
  rw [if_neg (by omega), if_pos (by exact ⟨h1, h2⟩), if_pos hmode]

/-- An OAM write never touches STAT, whatever the mode. -/
theorem PPU.write_oam_stat (p : PPU) (a v : Nat) (h1 : 0xfe00 ≤ a) (h2 : a ≤ 0xfe9f) :
    (p.write a v).stat = p.stat := by
  unfold PPU.write
  rw [if_neg (by omega), if_pos (by exact ⟨h1, h2⟩)]
  split <;> rfl

/-- The DMA loop out of 0xC000 never touches work RAM or STAT, and in
H-Blank/V-Blank its first `n` OAM bytes hold the copied RAM bytes. -/
theorem MMU.do_dma_go_state (m : MMU)
    (hmode : m.ppu.stat &&& 3 = 0 ∨ m.ppu.stat &&& 3 = 1) :
    ∀ n, n ≤ 0xa0 →
      (MMU.do_dma_go m 0xc000 0xfe00 n).ram = m.ram ∧
      (MMU.do_dma_go m 0xc000 0xfe00 n).ppu.stat = m.ppu.stat ∧
      (∀ j, j < n → (MMU.do_dma_go m 0xc000 0xfe00 n).ppu.oam j = m.ram j) := by
  intro n
  induction n with
  | zero => exact fun _ => ⟨rfl, rfl, fun j hj => absurd hj (by omega)⟩
  | succ n ih =>
    intro hn
    obtain ⟨ihram, ihstat, ihoam⟩ := ih (by omega)
    obtain ⟨hfe, hc0, hcmask, hfmask⟩ := dma_addr_facts n (by omega)
    unfold MMU.do_dma_go
    rw [hfe, hc0, MMU.read_ram_range _ _ (by omega) (by omega), hcmask,
      MMU.write1_oam_range _ _ _ (by omega) (by omega),
      PPU.write_oam_mode01 _ _ _ (by omega) (by omega) (by rw [ihstat]; exact hmode),
      hfmask, ihram]
    refine ⟨rfl, ihstat, ?_⟩
    intro j hj
    show upd (MMU.do_dma_go m 0xc000 0xfe00 n).ppu.oam n (m.ram n) j = m.ram j
    rcases Nat.lt_or_ge j n with hjn | hjn
    · rw [upd_ne _ _ _ _ (by omega)]
      exact ihoam j hjn
    · have hj_eq : j = n := by omega
      subst hj_eq
      exact upd_same _ _ _

/-- The DMA loop never touches STAT, whatever the PPU mode. -/
theorem MMU.do_dma_go_stat (m : MMU) :
    ∀ n, n ≤ 0xa0 →
      (MMU.do_dma_go m 0xc000 0xfe00 n).ppu.stat = m.ppu.stat := by
  intro n
  induction n with
  | zero => exact fun _ => rfl
  | succ n ih =>
    intro hn
    obtain ⟨hfe, _, _, _⟩ := dma_addr_facts n (by omega)
    unfold MMU.do_dma_go
    rw [hfe, MMU.write1_oam_range _ _ _ (by omega) (by omega)]
    show ((MMU.do_dma_go m 0xc000 0xfe00 n).ppu.write (0xfe00 + n) _).stat = _
    rw [PPU.write_oam_stat _ _ _ (by omega) (by omega)]
    exact ih (by omega)

/-- A write of 0xC0 to 0xFF46 is exactly the accepted 160-byte copy. -/
theorem MMU.write_ff46_c0 (m : MMU) :
    m.write 0xff46 0xc0 = MMU.do_dma_go m 0xc000 0xfe00 0xa0 := by
  have h1 : m.write 0xff46 0xc0 = m.do_dma 0xc0 := by
    unfold MMU.write
    rw [if_pos rfl]
  rw [h1]
  unfold MMU.do_dma
  rw [if_neg (by decide)]
  rw [show (0xc0 <<< 8 : Nat) = 0xc000 from by decide]

/-- C2 counterexample machine: the reset bus with work RAM pre-filled
with 0x00..0x9F; its PPU is in mode 2 (OAM search), the reset mode. -/
def mmuC2 : MMU :=
  { MMU.new Catridge.sample with ram := (fun i => if i < 0xa0 then i else 0) }

/-- C2 counterexample: in the reset machine state (PPU mode 2) with
work RAM 0xC000..0xC09F holding 0x00..0x9F, writing 0xC0 to 0xFF46 and
then reading 0xFE42 yields 0xFF, not 0x42 — OAM is inaccessible outside
H-Blank/V-Blank, so the claim fails for this machine state. -/
theorem C2_counterexample :
    (∀ i, i < 0xa0 → mmuC2.read (0xc000 + i) = i) ∧
    (mmuC2.write 0xff46 0xc0).read 0xfe42 ≠ 0x42 := by
  constructor
  · intro i hi
    rw [MMU.read_ram_range _ _ (by omega) (by omega), (dma_addr_facts i hi).2.2.1]
    show (if i < 0xa0 then i else 0) = i
    rw [if_pos hi]
  · rw [MMU.write_ff46_c0, MMU.read_oam_range _ _ (by omega) (by omega)]
    unfold PPU.read
    rw [if_neg (by omega), if_pos (by omega), if_neg]
    · decide
    · rw [MMU.do_dma_go_stat mmuC2 0xa0 (by omega)]
      show ¬((2 : Nat) &&& 3 = 0 ∨ (2 : Nat) &&& 3 = 1)
      decide

/-- C2 (amended): for every machine state whose PPU is in H-Blank or
V-Blank (STAT mode 0 or 1) and whose work RAM at 0xC000..0xC09F holds
0x00..0x9F, writing 0xC0 to 0xFF46 makes a subsequent bus read of
0xFE42 return 0x42; in the claim's unrestricted form the copy is
dropped whenever the PPU is in mode 2 or 3. -/
theorem C2_dma_copy_observable (m : MMU)
    (hmode : m.ppu.stat &&& 3 = 0 ∨ m.ppu.stat &&& 3 = 1)
    (hram : ∀ i, i < 0xa0 → m.ram i = i) :
    (m.write 0xff46 0xc0).read 0xfe42 = 0x42 := by
  obtain ⟨_, hstat, hoam⟩ := MMU.do_dma_go_state m hmode 0xa0 (by omega)
  rw [MMU.write_ff46_c0, MMU.read_oam_range _ _ (by omega) (by omega)]
  unfold PPU.read
  rw [if_neg (by omega), if_pos (by omega), if_pos (by rw [hstat]; exact hmode)]
  have h42 : (0xfe42 : Nat) &&& 0xff = 0x42 := by decide
  rw [h42, hoam 0x42 (by omega), hram 0x42 (by omega)]

/-- C2 witness machine: reset bus in H-Blank with RAM pre-filled. -/
def mmuC2w : MMU :=
  { MMU.new Catridge.sample with
    ram := fun i => if i < 0xa0 then i else 0
    ppu := { PPU.new with stat := 0 } }

theorem C2_dma_copy_observable_witness :
    (mmuC2w.ppu.stat &&& 3 = 0 ∨ mmuC2w.ppu.stat &&& 3 = 1) ∧
    (∀ i, i < 0xa0 → mmuC2w.ram i = i) ∧
    (mmuC2w.write 0xff46 0xc0).read 0xfe42 = 0x42 :=
  ⟨Or.inl (by decide), by decide,
    C2_dma_copy_observable mmuC2w (Or.inl (by decide)) (by decide)⟩

/-! ## C1: interrupt dispatch vectors -/

/-- A reset CPU with IME set and a single interrupt bit pending and
enabled in IF and IE. -/
def isrCPU (intbits : Nat) : CPU :=
  { CPU.new Catridge.sample with
    ime := true,
    mmu := { MMU.new Catridge.sample with int_flag := intbits, int_enable := intbits } }

/-- C1 failing inputs: with interrupt bit 3 (resp. 4) pending and
enabled, dispatch clears IF, IME and the halt latch and spends
8 + 12 ticks as claimed — but the CPU jumps to 0x80 (resp. 0x70)
instead of the claimed vectors 0x58 and 0x60. -/
theorem C1_isr_vector_bug :
    ((CPU.check_irqs (isrCPU 0x08)).pc = 0x80 ∧ (CPU.check_irqs (isrCPU 0x08)).pc ≠ 0x58 ∧
      (CPU.check_irqs (isrCPU 0x08)).mmu.int_flag = 0 ∧
      (CPU.check_irqs (isrCPU 0x08)).ime = false ∧
      (CPU.check_irqs (isrCPU 0x08)).halted = false ∧
      (CPU.check_irqs (isrCPU 0x08)).tick = 20) ∧
    ((CPU.check_irqs (isrCPU 0x10)).pc = 0x70 ∧ (CPU.check_irqs (isrCPU 0x10)).pc ≠ 0x60) ∧
    ((CPU.check_irqs (isrCPU 0x01)).pc = 0x40 ∧
      (CPU.check_irqs (isrCPU 0x02)).pc = 0x48 ∧
      (CPU.check_irqs (isrCPU 0x04)).pc = 0x50) := by
  decide

/-! ## C9: flag-register bit lemmas -/

theorem getter_eq_testBit (f k : Nat) : ((f >>> k) &&& 1 == 1) = f.testBit k := by
  rw [Nat.testBit_to_div_mod, Nat.shiftRight_eq_div_pow, Nat.and_one_is_mod]
  rcases Nat.mod_two_eq_zero_or_one (f / 2 ^ k) with h | h <;> simp [h]

theorem setter_bit_ne (f j k : Nat) (b : Bool) (M : Nat) (hMj : M.testBit j = true)
    (hk : (b2n b <<< k).testBit j = false) :
    ((f &&& M) ||| (b2n b <<< k)).testBit j = f.testBit j := by
  simp [Nat.testBit_or, Nat.testBit_and, hMj, hk]

theorem setter_bit_self (f k : Nat) (b : Bool) (M : Nat) (hMk : M.testBit k = false)
    (hb : (b2n b <<< k).testBit k = b) :
    ((f &&& M) ||| (b2n b <<< k)).testBit k = b := by
  simp [Nat.testBit_or, Nat.testBit_and, hMk, hb]

theorem f_z_set_f_z (s : CPU) (b : Bool) : (s.set_f_z b).f_z = b := by
  unfold CPU.f_z CPU.set_f_z
  rw [getter_eq_testBit]
  exact setter_bit_self _ _ _ _ (by decide) (by cases b <;> decide)

theorem f_z_set_f_n (s : CPU) (b : Bool) : (s.set_f_n b).f_z = s.f_z := by
  unfold CPU.f_z CPU.set_f_n
  rw [getter_eq_testBit, getter_eq_testBit]
  exact setter_bit_ne _ _ _ _ _ (by decide) (by cases b <;> decide)

theorem f_z_set_f_h (s : CPU) (b : Bool) : (s.set_f_h b).f_z = s.f_z := by
  unfold CPU.f_z CPU.set_f_h
  rw [getter_eq_testBit, getter_eq_testBit]
  exact setter_bit_ne _ _ _ _ _ (by decide) (by cases b <;> decide)

theorem f_z_set_f_c (s : CPU) (b : Bool) : (s.set_f_c b).f_z = s.f_z := by
  unfold CPU.f_z CPU.set_f_c
  rw [getter_eq_testBit, getter_eq_testBit]
  exact setter_bit_ne _ _ _ _ _ (by decide) (by cases b <;> decide)

theorem f_c_set_f_c (s : CPU) (b : Bool) : (s.set_f_c b).f_c = b := by
  unfold CPU.f_c CPU.set_f_c
  rw [getter_eq_testBit]
  exact setter_bit_self _ _ _ _ (by decide) (by cases b <;> decide)

theorem f_c_set_f_z (s : CPU) (b : Bool) : (s.set_f_z b).f_c = s.f_c := by
  unfold CPU.f_c CPU.set_f_z
  rw [getter_eq_testBit, getter_eq_testBit]
  exact setter_bit_ne _ _ _ _ _ (by decide) (by cases b <;> decide)

theorem f_c_set_f_n (s : CPU) (b : Bool) : (s.set_f_n b).f_c = s.f_c := by
  unfold CPU.f_c CPU.set_f_n
  rw [getter_eq_testBit, getter_eq_testBit]
  exact setter_bit_ne _ _ _ _ _ (by decide) (by cases b <;> decide)

theorem f_c_set_f_h (s : CPU) (b : Bool) : (s.set_f_h b).f_c = s.f_c := by
  unfold CPU.f_c CPU.set_f_h
  rw [getter_eq_testBit, getter_eq_testBit]
  exact setter_bit_ne _ _ _ _ _ (by decide) (by cases b <;> decide)

/-- Register and flag content of `CPU::_add`. -/
theorem CPU.add_eval (s : CPU) (v : Nat) :
    (s._add v).a = (s.a + v) % 256 ∧ (s._add v).mmu = s.mmu ∧ (s._add v).pc = s.pc ∧
    (s._add v).f_z = ((s.a + v) % 256 == 0) ∧ (s._add v).f_c = decide (s.a + v > 0xff) := by
  refine ⟨rfl, rfl, rfl, ?_, ?_⟩
  · show ((((({ s with a := (s.a + v) % 256 } : CPU).set_f_z
      ((s.a + v) % 256 == 0)).set_f_n false).set_f_h
      (decide ((s.a &&& 0xf) + (v &&& 0xf) > 0xf))).set_f_c
      (decide (s.a + v > 0xff))).f_z = ((s.a + v) % 256 == 0)
    rw [f_z_set_f_c, f_z_set_f_h, f_z_set_f_n, f_z_set_f_z]
  · show ((((({ s with a := (s.a + v) % 256 } : CPU).set_f_z
      ((s.a + v) % 256 == 0)).set_f_n false).set_f_h
      (decide ((s.a &&& 0xf) + (v &&& 0xf) > 0xf))).set_f_c
      (decide (s.a + v > 0xff))).f_c = decide (s.a + v > 0xff)
    rw [f_c_set_f_c]

/-- Register and flag content of `CPU::_sub`. -/
theorem CPU.sub_eval (s : CPU) (v : Nat) :
    (s._sub v).a = (s.a + 256 - v % 256) % 256 ∧ (s._sub v).mmu = s.mmu ∧
    (s._sub v).pc = s.pc ∧
    (s._sub v).f_z = ((s.a + 256 - v % 256) % 256 == 0) ∧
    (s._sub v).f_c = decide (s.a < v) := by
  refine ⟨rfl, rfl, rfl, ?_, ?_⟩
  · show ((((({ s with a := (s.a + 256 - v % 256) % 256 } : CPU).set_f_z
      ((s.a + 256 - v % 256) % 256 == 0)).set_f_n true).set_f_h
      (decide (s.a &&& 0xf < v &&& 0xf))).set_f_c
      (decide (s.a < v))).f_z = ((s.a + 256 - v % 256) % 256 == 0)
    rw [f_z_set_f_c, f_z_set_f_h, f_z_set_f_n, f_z_set_f_z]
  · show ((((({ s with a := (s.a + 256 - v % 256) % 256 } : CPU).set_f_z
      ((s.a + 256 - v % 256) % 256 == 0)).set_f_n true).set_f_h
      (decide (s.a &&& 0xf < v &&& 0xf))).set_f_c
      (decide (s.a < v))).f_c = decide (s.a < v)
    rw [f_c_set_f_c]

/-- State after one bus fetch: 4 ticks, PC advanced by one. -/
def CPU.postFetch (s : CPU) : CPU :=
  { s with tick := s.tick + 4, pc := (s.pc + 1) % 65536 }

/-- Decoding opcode 0xC6 (ADD A,d8). -/
theorem fetch_0xc6 (s : CPU) (h : s.mmu.read s.pc = 0xc6) :
    s.fetch_and_exec = some (CPU.add_d8 (CPU.postFetch s)) := by
  simp [CPU.fetch_and_exec, CPU.read_d8, CPU.read_mem8, CPU.postFetch, h]

/-- Decoding opcode 0xD6 (SUB d8). -/
theorem fetch_0xd6 (s : CPU) (h : s.mmu.read s.pc = 0xd6) :
    s.fetch_and_exec = some (CPU.sub_d8 (CPU.postFetch s)) := by
  simp [CPU.fetch_and_exec, CPU.read_d8, CPU.read_mem8, CPU.postFetch, h]

/-- ADD A,d8 is `_add` of the fetched immediate. -/
theorem add_d8_eval (s : CPU) (n : Nat) (h : s.mmu.read s.pc = n) :
    CPU.add_d8 s = CPU._add (CPU.postFetch s) n := by
  simp [CPU.add_d8, CPU.read_d8, CPU.read_mem8, CPU.postFetch, h]

/-- SUB d8 is `_sub` of the fetched immediate. -/
theorem sub_d8_eval (s : CPU) (n : Nat) (h : s.mmu.read s.pc = n) :
    CPU.sub_d8 s = CPU._sub (CPU.postFetch s) n := by
  simp [CPU.sub_d8, CPU.read_d8, CPU.read_mem8, CPU.postFetch, h]

/-- Two consecutive instruction executions (back-to-back
`fetch_and_exec` calls). -/
def CPU.exec2 (s : CPU) : Option CPU :=
  match s.fetch_and_exec with
  | none => none
  | some t => t.fetch_and_exec

/-- C9 counterexample cartridge: `ADD A,0; SUB A,0` at the reset PC. -/
def cartC9 : Catridge :=
  { Catridge.sample with
    rom := fun a => if a = 0x100 then 0xc6 else if a = 0x102 then 0xd6 else 0 }

/-- C9 counterexample CPU: reset state with C set and Z clear in F. -/
def cpuC9 : CPU := { CPU.new cartC9 with f := 0x10 }

/-- C9 counterexample: from A=0, F with C=1 and Z=0, executing
`ADD A,0; SUB A,0` leaves A intact but ends with C=0 and Z=1 — the
Z and C flags are not restored to their initial values. -/
theorem C9_counterexample :
    cpuC9.f_c = true ∧ cpuC9.f_z = false ∧
    (CPU.exec2 cpuC9).map CPU.f_c = some false ∧
    (CPU.exec2 cpuC9).map CPU.f_z = some true ∧
    (CPU.exec2 cpuC9).map CPU.a = some cpuC9.a := by
  decide

/-- C9 (amended): `ADD A,n; SUB A,n` always restores the A register;
the final Z flag equals whether the original A was zero and the final
C flag equals the carry out of the ADD, so Z and C are restored exactly
when they already held those values (H unconstrained). -/
theorem C9_add_sub_roundtrip (s : CPU) (n : Nat) (ha : s.a < 256) (hn : n < 256)
    (h0 : s.mmu.read s.pc = 0xc6)
    (h1 : s.mmu.read ((s.pc + 1) % 65536) = n)
    (h2 : s.mmu.read ((s.pc + 2) % 65536) = 0xd6)
    (h3 : s.mmu.read ((s.pc + 3) % 65536) = n) :
    ∃ s2, CPU.exec2 s = some s2 ∧ s2.a = s.a ∧ s2.f_z = (s.a == 0) ∧
      s2.f_c = decide (0xff < s.a + n) := by
  have hmod2 : ((s.pc + 1) % 65536 + 1) % 65536 = (s.pc + 2) % 65536 := by omega
  have hmod3 : ((s.pc + 2) % 65536 + 1) % 65536 = (s.pc + 3) % 65536 := by omega
  have e1 := fetch_0xc6 s h0
  have hadd := add_d8_eval (CPU.postFetch s) n
    (show (CPU.postFetch s).mmu.read (CPU.postFetch s).pc = n from h1)
  have h2' : (CPU._add (CPU.postFetch (CPU.postFetch s)) n).mmu.read
      (CPU._add (CPU.postFetch (CPU.postFetch s)) n).pc = 0xd6 := by
    show s.mmu.read (((s.pc + 1) % 65536 + 1) % 65536) = 0xd6
    rw [hmod2]
    exact h2
  have e2 := fetch_0xd6 _ h2'
  have h3' : (CPU.postFetch (CPU._add (CPU.postFetch (CPU.postFetch s)) n)).mmu.read
      (CPU.postFetch (CPU._add (CPU.postFetch (CPU.postFetch s)) n)).pc = n := by
    show s.mmu.read ((((s.pc + 1) % 65536 + 1) % 65536 + 1) % 65536) = n
    rw [hmod2, hmod3]
    exact h3
  have hsub := sub_d8_eval _ n h3'
  have ha1 : (CPU.postFetch (CPU.postFetch (CPU._add (CPU.postFetch (CPU.postFetch s)) n))).a
      = (s.a + n) % 256 := (CPU.add_eval (CPU.postFetch (CPU.postFetch s)) n).1
  obtain ⟨hsa, _, _, hsz, hsc⟩ :=
    CPU.sub_eval (CPU.postFetch (CPU.postFetch (CPU._add (CPU.postFetch (CPU.postFetch s)) n))) n
  have hAeq : ((s.a + n) % 256 + 256 - n % 256) % 256 = s.a := by omega
  refine ⟨(CPU._sub (CPU.postFetch (CPU.postFetch (CPU._add (CPU.postFetch (CPU.postFetch s)) n))) n),
    ?_, ?_, ?_, ?_⟩
  · unfold CPU.exec2
    rw [e1]
    show (CPU.add_d8 (CPU.postFetch s)).fetch_and_exec = _
    rw [hadd, e2, hsub]
  · rw [hsa, ha1, hAeq]
  · rw [hsz, ha1, hAeq]
  · rw [hsc, ha1]
    simp only [decide_eq_decide]
    omega

theorem C9_add_sub_roundtrip_witness :
    cpuC9.a < 256 ∧ (0 : Nat) < 256 ∧
    cpuC9.mmu.read cpuC9.pc = 0xc6 ∧
    cpuC9.mmu.read ((cpuC9.pc + 1) % 65536) = 0 ∧
    cpuC9.mmu.read ((cpuC9.pc + 2) % 65536) = 0xd6 ∧
    cpuC9.mmu.read ((cpuC9.pc + 3) % 65536) = 0 ∧
    (∃ s2, CPU.exec2 cpuC9 = some s2 ∧ s2.a = cpuC9.a ∧ s2.f_z = (cpuC9.a == 0) ∧
      s2.f_c = decide (0xff < cpuC9.a + 0)) :=
  ⟨by decide, by decide, by decide, by decide, by decide, by decide,
    C9_add_sub_roundtrip cpuC9 0 (by decide) (by decide) (by decide) (by decide)
      (by decide) (by decide)⟩

theorem C4_rom_bank_range_witness :
    Catridge.sample.bank_no_lower < 0x20 ∧ Catridge.sample.bank_no_upper < 4 ∧
    (1 : Nat) ≤ 1 ∧ Catridge.sample.num_rom_banks = 2 ^ 1 ∧
    (Catridge.sample.rom_bank_no ≤ Catridge.sample.num_rom_banks - 1 ∧
      (32 ≤ Catridge.sample.num_rom_banks → 1 ≤ Catridge.sample.rom_bank_no)) :=
  ⟨by decide, by decide, by decide, by decide,
    C4_rom_bank_range Catridge.sample 1 (by decide) (by decide) (by decide) (by decide)⟩

/-! ## C6: the low nibble of F is always zero -/

theorem f15_set_f_z (s : CPU) (b : Bool) : (s.set_f_z b).f &&& 15 = s.f &&& 15 := by
  show ((s.f &&& (0xff ^^^ (1 <<< 7))) ||| (b2n b <<< 7)) &&& 15 = s.f &&& 15
  rw [and_or_distrib_mask, shiftLeft_and_low _ 7 15 (by decide), Nat.or_zero, Nat.and_assoc,
    show ((0xff ^^^ (1 <<< 7)) &&& 15 : Nat) = 15 from by decide]

theorem f15_set_f_n (s : CPU) (b : Bool) : (s.set_f_n b).f &&& 15 = s.f &&& 15 := by
  show ((s.f &&& (0xff ^^^ (1 <<< 6))) ||| (b2n b <<< 6)) &&& 15 = s.f &&& 15
  rw [and_or_distrib_mask, shiftLeft_and_low _ 6 15 (by decide), Nat.or_zero, Nat.and_assoc,
    show ((0xff ^^^ (1 <<< 6)) &&& 15 : Nat) = 15 from by decide]

theorem f15_set_f_h (s : CPU) (b : Bool) : (s.set_f_h b).f &&& 15 = s.f &&& 15 := by
  show ((s.f &&& (0xff ^^^ (1 <<< 5))) ||| (b2n b <<< 5)) &&& 15 = s.f &&& 15
  rw [and_or_distrib_mask, shiftLeft_and_low _ 5 15 (by decide), Nat.or_zero, Nat.and_assoc,
    show ((0xff ^^^ (1 <<< 5)) &&& 15 : Nat) = 15 from by decide]

theorem f15_set_f_c (s : CPU) (b : Bool) : (s.set_f_c b).f &&& 15 = s.f &&& 15 := by
  show ((s.f &&& (0xff ^^^ (1 <<< 4))) ||| (b2n b <<< 4)) &&& 15 = s.f &&& 15
  rw [and_or_distrib_mask, shiftLeft_and_low _ 4 15 (by decide), Nat.or_zero, Nat.and_assoc,
    show ((0xff ^^^ (1 <<< 4)) &&& 15 : Nat) = 15 from by decide]

theorem CPU.f_write_mem8 (s : CPU) (a v : Nat) : (s.write_mem8 a v).f = s.f := rfl

theorem CPU.f_write_mem16 (s : CPU) (a v : Nat) : (s.write_mem16 a v).f = s.f := rfl

theorem CPU.f_read_mem8 (s : CPU) (a : Nat) : (s.read_mem8 a).2.f = s.f := rfl

theorem CPU.f_read_mem16 (s : CPU) (a : Nat) : (s.read_mem16 a).2.f = s.f := rfl

theorem CPU.f_read_d8 (s : CPU) : s.read_d8.2.f = s.f := rfl

theorem CPU.f_read_d16 (s : CPU) : s.read_d16.2.f = s.f := rfl

theorem CPU.f_set_bc (s : CPU) (v : Nat) : (s.set_bc v).f = s.f := rfl

theorem CPU.f_set_de (s : CPU) (v : Nat) : (s.set_de v).f = s.f := rfl

theorem CPU.f_set_hl (s : CPU) (v : Nat) : (s.set_hl v).f = s.f := rfl

theorem CPU.f_write_r8 (s : CPU) (i v : Nat) : (s.write_r8 i v).f = s.f := by
  unfold CPU.write_r8
  repeat' split
  all_goals rfl

theorem CPU.f_read_r8 (s : CPU) (i : Nat) : (s.read_r8 i).2.f = s.f := by
  unfold CPU.read_r8
  repeat' split
  all_goals rfl

theorem CPU.f_write_r16 (s : CPU) (i v : Nat) : (s.write_r16 i v).f = s.f := by
  unfold CPU.write_r16
  repeat' split
  all_goals rfl

theorem CPU.f_ujp (s : CPU) (a : Nat) : (s._jp a).f = s.f := rfl

theorem CPU.f_ujr (s : CPU) (o : Nat) : (s._jr o).f = s.f := rfl

theorem CPU.f_ucall (s : CPU) (a : Nat) : (s._call a).f = s.f := by
  simp only [CPU._call, CPU.f_write_mem16]

theorem CPU.f_uret (s : CPU) : s._ret.f = s.f := rfl

theorem CPU.f_call_isr (s : CPU) (id : Nat) : (s.call_isr id).f = s.f := by
  simp only [CPU.call_isr, CPU.f_ucall]

theorem CPU.f_nop (s : CPU) : s.nop.f = s.f := rfl

theorem CPU.f_ld_r16_d16 (s : CPU) (reg : Nat) : (s.ld_r16_d16 reg).f = s.f := by
  simp only [CPU.ld_r16_d16, CPU.f_write_r16, CPU.f_read_d16]

theorem CPU.f_ld_ind_d16_sp (s : CPU) : s.ld_ind_d16_sp.f = s.f := rfl

theorem CPU.f_ld_sp_hl (s : CPU) : s.ld_sp_hl.f = s.f := rfl

theorem CPU.f_ld_ind_bc_a (s : CPU) : s.ld_ind_bc_a.f = s.f := rfl

theorem CPU.f_ld_ind_de_a (s : CPU) : s.ld_ind_de_a.f = s.f := rfl

theorem CPU.f_ld_a_ind_bc (s : CPU) : s.ld_a_ind_bc.f = s.f := rfl

theorem CPU.f_ld_a_ind_de (s : CPU) : s.ld_a_ind_de.f = s.f := rfl

theorem CPU.f_push_bc (s : CPU) : s.push_bc.f = s.f := by
  simp only [CPU.push_bc, CPU.f_write_mem16]

theorem CPU.f_push_de (s : CPU) : s.push_de.f = s.f := by
  simp only [CPU.push_de, CPU.f_write_mem16]

theorem CPU.f_push_hl (s : CPU) : s.push_hl.f = s.f := by
  simp only [CPU.push_hl, CPU.f_write_mem16]

theorem CPU.f_push_af (s : CPU) : s.push_af.f = s.f := by
  simp only [CPU.push_af, CPU.f_write_mem16]

theorem CPU.f_pop_bc (s : CPU) : s.pop_bc.f = s.f := rfl

theorem CPU.f_pop_de (s : CPU) : s.pop_de.f = s.f := rfl

theorem CPU.f_pop_hl (s : CPU) : s.pop_hl.f = s.f := rfl

theorem f15_pop_af (s : CPU) : s.pop_af.f &&& 15 = 0 := by
  show ((s.read_mem16 s.sp).1 &&& 0xfff0 &&& 0xff) &&& 15 = 0
  rw [Nat.and_assoc, Nat.and_assoc, show ((0xfff0 : Nat) &&& (0xff &&& 15)) = 0 from by decide,
    Nat.and_zero]

theorem CPU.f_jp_d16 (s : CPU) : s.jp_d16.f = s.f := rfl

theorem CPU.f_jp_hl (s : CPU) : s.jp_hl.f = s.f := rfl

theorem CPU.f_jp_cc_d8 (s : CPU) (cci : Nat) : (s.jp_cc_d8 cci).f = s.f := by
  unfold CPU.jp_cc_d8
  dsimp only
  split
  · rw [CPU.f_ujp, CPU.f_read_d16]
  · exact CPU.f_read_d16 s

theorem CPU.f_jr_d8 (s : CPU) : s.jr_d8.f = s.f := rfl

theorem CPU.f_jr_cc_d8 (s : CPU) (cci : Nat) : (s.jr_cc_d8 cci).f = s.f := by
  unfold CPU.jr_cc_d8
  dsimp only
  split
  · rw [CPU.f_ujr, CPU.f_read_d8]
  · exact CPU.f_read_d8 s

theorem f15_add_hl_r16 (s : CPU) (reg : Nat) : (s.add_hl_r16 reg).f &&& 15 = s.f &&& 15 := by
  simp only [CPU.add_hl_r16, f15_set_f_c, f15_set_f_h, f15_set_f_n, CPU.f_set_hl]

theorem f15_uadd_sp (s : CPU) (o : Nat) : (s._add_sp o).2.f &&& 15 = s.f &&& 15 := by
  simp only [CPU._add_sp, f15_set_f_c, f15_set_f_h, f15_set_f_n, f15_set_f_z]

theorem f15_add_sp_d8 (s : CPU) : s.add_sp_d8.f &&& 15 = s.f &&& 15 := by
  simp only [CPU.add_sp_d8, f15_uadd_sp, CPU.f_read_d8]

theorem f15_ld_hl_sp_d8 (s : CPU) : s.ld_hl_sp_d8.f &&& 15 = s.f &&& 15 := by
  simp only [CPU.ld_hl_sp_d8, CPU.f_set_hl, f15_uadd_sp, CPU.f_read_d8]

theorem f15_and_r8 (s : CPU) (reg : Nat) : (s.and_r8 reg).f &&& 15 = s.f &&& 15 := by
  simp only [CPU.and_r8, f15_set_f_c, f15_set_f_h, f15_set_f_n, f15_set_f_z, CPU.f_read_r8]

theorem f15_or_r8 (s : CPU) (reg : Nat) : (s.or_r8 reg).f &&& 15 = s.f &&& 15 := by
  simp only [CPU.or_r8, f15_set_f_c, f15_set_f_h, f15_set_f_n, f15_set_f_z, CPU.f_read_r8]

theorem f15_xor_r8 (s : CPU) (reg : Nat) : (s.xor_r8 reg).f &&& 15 = s.f &&& 15 := by
  simp only [CPU.xor_r8, f15_set_f_c, f15_set_f_h, f15_set_f_n, f15_set_f_z, CPU.f_read_r8]

theorem f15_cp_r8 (s : CPU) (reg : Nat) : (s.cp_r8 reg).f &&& 15 = s.f &&& 15 := by
  simp only [CPU.cp_r8, f15_set_f_c, f15_set_f_h, f15_set_f_n, f15_set_f_z, CPU.f_read_r8]

theorem f15_daa (s : CPU) : s.daa.f &&& 15 = s.f &&& 15 := by
  unfold CPU.daa
  dsimp only
  repeat' split
  all_goals simp only [f15_set_f_h, f15_set_f_z, f15_set_f_c]

theorem f15_cpl (s : CPU) : s.cpl.f &&& 15 = s.f &&& 15 := by
  simp only [CPU.cpl, f15_set_f_h, f15_set_f_n]

theorem f15_ccf (s : CPU) : s.ccf.f &&& 15 = s.f &&& 15 := by
  simp only [CPU.ccf, f15_set_f_c, f15_set_f_h, f15_set_f_n]

theorem f15_scf (s : CPU) : s.scf.f &&& 15 = s.f &&& 15 := by
  simp only [CPU.scf, f15_set_f_c, f15_set_f_h, f15_set_f_n]

theorem f15_uadd (s : CPU) (v : Nat) : (s._add v).f &&& 15 = s.f &&& 15 := by
  simp only [CPU._add, f15_set_f_c, f15_set_f_h, f15_set_f_n, f15_set_f_z]

theorem f15_usub (s : CPU) (v : Nat) : (s._sub v).f &&& 15 = s.f &&& 15 := by
  simp only [CPU._sub, f15_set_f_c, f15_set_f_h, f15_set_f_n, f15_set_f_z]

theorem f15_uadc (s : CPU) (v : Nat) : (s._adc v).f &&& 15 = s.f &&& 15 := by
  simp only [CPU._adc, f15_set_f_c, f15_set_f_h, f15_set_f_n, f15_set_f_z]

theorem f15_usbc (s : CPU) (v : Nat) : (s._sbc v).f &&& 15 = s.f &&& 15 := by
  simp only [CPU._sbc, f15_set_f_c, f15_set_f_h, f15_set_f_n, f15_set_f_z]

theorem f15_add_r8 (s : CPU) (reg : Nat) : (s.add_r8 reg).f &&& 15 = s.f &&& 15 := by
  simp only [CPU.add_r8, f15_uadd, CPU.f_read_r8]

theorem f15_adc_r8 (s : CPU) (reg : Nat) : (s.adc_r8 reg).f &&& 15 = s.f &&& 15 := by
  simp only [CPU.adc_r8, f15_uadc, CPU.f_read_r8]

theorem f15_sub_r8 (s : CPU) (reg : Nat) : (s.sub_r8 reg).f &&& 15 = s.f &&& 15 := by
  simp only [CPU.sub_r8, f15_usub, CPU.f_read_r8]

theorem f15_sbc_r8 (s : CPU) (reg : Nat) : (s.sbc_r8 reg).f &&& 15 = s.f &&& 15 := by
  simp only [CPU.sbc_r8, f15_usbc, CPU.f_read_r8]

theorem f15_add_d8 (s : CPU) : s.add_d8.f &&& 15 = s.f &&& 15 := by
  simp only [CPU.add_d8, f15_uadd, CPU.f_read_d8]

theorem f15_sub_d8 (s : CPU) : s.sub_d8.f &&& 15 = s.f &&& 15 := by
  simp only [CPU.sub_d8, f15_usub, CPU.f_read_d8]

theorem f15_adc_d8 (s : CPU) : s.adc_d8.f &&& 15 = s.f &&& 15 := by
  simp only [CPU.adc_d8, f15_uadc, CPU.f_read_d8]

theorem f15_sbc_d8 (s : CPU) : s.sbc_d8.f &&& 15 = s.f &&& 15 := by
  simp only [CPU.sbc_d8, f15_usbc, CPU.f_read_d8]

theorem f15_and_d8 (s : CPU) : s.and_d8.f &&& 15 = s.f &&& 15 := by
  simp only [CPU.and_d8, f15_set_f_c, f15_set_f_h, f15_set_f_n, f15_set_f_z, CPU.f_read_d8]

theorem f15_or_d8 (s : CPU) : s.or_d8.f &&& 15 = s.f &&& 15 := by
  simp only [CPU.or_d8, f15_set_f_c, f15_set_f_h, f15_set_f_n, f15_set_f_z, CPU.f_read_d8]

theorem f15_xor_d8 (s : CPU) : s.xor_d8.f &&& 15 = s.f &&& 15 := by
  simp only [CPU.xor_d8, f15_set_f_c, f15_set_f_h, f15_set_f_n, f15_set_f_z, CPU.f_read_d8]

theorem f15_cp_d8 (s : CPU) : s.cp_d8.f &&& 15 = s.f &&& 15 := by
  simp only [CPU.cp_d8, f15_set_f_c, f15_set_f_h, f15_set_f_n, f15_set_f_z, CPU.f_read_d8]

theorem CPU.f_ldi_hl_a (s : CPU) : s.ldi_hl_a.f = s.f := rfl

theorem CPU.f_ldd_hl_a (s : CPU) : s.ldd_hl_a.f = s.f := rfl

theorem CPU.f_ldi_a_hl (s : CPU) : s.ldi_a_hl.f = s.f := rfl

theorem CPU.f_ldd_a_hl (s : CPU) : s.ldd_a_hl.f = s.f := rfl

theorem CPU.f_ld_io_d8_a (s : CPU) : s.ld_io_d8_a.f = s.f := rfl

theorem CPU.f_ld_a_io_d8 (s : CPU) : s.ld_a_io_d8.f = s.f := rfl

theorem CPU.f_ld_io_c_a (s : CPU) : s.ld_io_c_a.f = s.f := rfl

theorem CPU.f_ld_a_io_c (s : CPU) : s.ld_a_io_c.f = s.f := rfl

theorem CPU.f_ld_r8_d8 (s : CPU) (reg : Nat) : (s.ld_r8_d8 reg).f = s.f := by
  simp only [CPU.ld_r8_d8, CPU.f_write_r8, CPU.f_read_d8]

theorem f15_inc_r8 (s : CPU) (reg : Nat) : (s.inc_r8 reg).f &&& 15 = s.f &&& 15 := by
  simp only [CPU.inc_r8, f15_set_f_n, f15_set_f_h, f15_set_f_z, CPU.f_write_r8, CPU.f_read_r8]

theorem f15_dec_r8 (s : CPU) (reg : Nat) : (s.dec_r8 reg).f &&& 15 = s.f &&& 15 := by
  simp only [CPU.dec_r8, f15_set_f_n, f15_set_f_h, f15_set_f_z, CPU.f_write_r8, CPU.f_read_r8]

theorem CPU.f_ld_r8_r8 (s : CPU) (r1 r2 : Nat) : (s.ld_r8_r8 r1 r2).f = s.f := by
  simp only [CPU.ld_r8_r8, CPU.f_write_r8, CPU.f_read_r8]

theorem CPU.f_call_d16 (s : CPU) : s.call_d16.f = s.f := by
  simp only [CPU.call_d16, CPU.f_ucall, CPU.f_read_d16]

theorem CPU.f_call_cc_d16 (s : CPU) (cci : Nat) : (s.call_cc_d16 cci).f = s.f := by
  unfold CPU.call_cc_d16
  dsimp only
  split
  · rw [CPU.f_ucall, CPU.f_read_d16]
  · exact CPU.f_read_d16 s

theorem CPU.f_rst (s : CPU) (a : Nat) : (s.rst a).f = s.f := by
  simp only [CPU.rst, CPU.f_ucall]

theorem CPU.f_ret (s : CPU) : s.ret.f = s.f := rfl

theorem CPU.f_ret_cc (s : CPU) (cci : Nat) : (s.ret_cc cci).f = s.f := by
  unfold CPU.ret_cc
  dsimp only
  split
  · exact CPU.f_uret _
  · rfl

theorem CPU.f_reti (s : CPU) : s.reti.f = s.f := rfl

theorem CPU.f_di (s : CPU) : s.di.f = s.f := rfl

theorem CPU.f_ei (s : CPU) : s.ei.f = s.f := rfl

theorem CPU.f_halt (s : CPU) : s.halt.f = s.f := by
  unfold CPU.halt
  split
  · rfl
  · rfl

theorem CPU.f_ld_ind_d16_a (s : CPU) : s.ld_ind_d16_a.f = s.f := rfl

theorem CPU.f_ld_a_ind_d16 (s : CPU) : s.ld_a_ind_d16.f = s.f := rfl

theorem CPU.f_inc_r16 (s : CPU) (reg : Nat) : (s.inc_r16 reg).f = s.f := by
  simp only [CPU.inc_r16, CPU.f_write_r16]

theorem CPU.f_dec_r16 (s : CPU) (reg : Nat) : (s.dec_r16 reg).f = s.f := by
  simp only [CPU.dec_r16, CPU.f_write_r16]

theorem f15_url (s : CPU) (reg : Nat) : (s._rl reg).f &&& 15 = s.f &&& 15 := by
  simp only [CPU._rl, f15_set_f_c, f15_set_f_h, f15_set_f_n, f15_set_f_z, CPU.f_write_r8,
    CPU.f_read_r8]

theorem f15_urlc (s : CPU) (reg : Nat) : (s._rlc reg).f &&& 15 = s.f &&& 15 := by
  simp only [CPU._rlc, f15_set_f_c, f15_set_f_h, f15_set_f_n, f15_set_f_z, CPU.f_write_r8,
    CPU.f_read_r8]

theorem f15_urr (s : CPU) (reg : Nat) : (s._rr reg).f &&& 15 = s.f &&& 15 := by
  simp only [CPU._rr, f15_set_f_c, f15_set_f_h, f15_set_f_n, f15_set_f_z, CPU.f_write_r8,
    CPU.f_read_r8]

theorem f15_urrc (s : CPU) (reg : Nat) : (s._rrc reg).f &&& 15 = s.f &&& 15 := by
  simp only [CPU._rrc, f15_set_f_c, f15_set_f_h, f15_set_f_n, f15_set_f_z, CPU.f_write_r8,
    CPU.f_read_r8]

theorem f15_rl (s : CPU) (reg : Nat) : (s.rl reg).f &&& 15 = s.f &&& 15 := by
  simp only [CPU.rl, f15_url]

theorem f15_rlc (s : CPU) (reg : Nat) : (s.rlc reg).f &&& 15 = s.f &&& 15 := by
  simp only [CPU.rlc, f15_urlc]

theorem f15_rr (s : CPU) (reg : Nat) : (s.rr reg).f &&& 15 = s.f &&& 15 := by
  simp only [CPU.rr, f15_urr]

theorem f15_rrc (s : CPU) (reg : Nat) : (s.rrc reg).f &&& 15 = s.f &&& 15 := by
  simp only [CPU.rrc, f15_urrc]

theorem f15_rlca (s : CPU) : s.rlca.f &&& 15 = s.f &&& 15 := by
  simp only [CPU.rlca, f15_set_f_z, f15_urlc]

theorem f15_rla (s : CPU) : s.rla.f &&& 15 = s.f &&& 15 := by
  simp only [CPU.rla, f15_set_f_z, f15_url]

theorem f15_rrca (s : CPU) : s.rrca.f &&& 15 = s.f &&& 15 := by
  simp only [CPU.rrca, f15_set_f_z, f15_urrc]

theorem f15_rra (s : CPU) : s.rra.f &&& 15 = s.f &&& 15 := by
  simp only [CPU.rra, f15_set_f_z, f15_urr]

theorem f15_sla (s : CPU) (reg : Nat) : (s.sla reg).f &&& 15 = s.f &&& 15 := by
  simp only [CPU.sla, f15_set_f_c, f15_set_f_h, f15_set_f_n, f15_set_f_z, CPU.f_write_r8,
    CPU.f_read_r8]

theorem f15_sra (s : CPU) (reg : Nat) : (s.sra reg).f &&& 15 = s.f &&& 15 := by
  simp only [CPU.sra, f15_set_f_c, f15_set_f_h, f15_set_f_n, f15_set_f_z, CPU.f_write_r8,
    CPU.f_read_r8]

theorem f15_swap (s : CPU) (reg : Nat) : (s.swap reg).f &&& 15 = s.f &&& 15 := by
  simp only [CPU.swap, f15_set_f_c, f15_set_f_h, f15_set_f_n, f15_set_f_z, CPU.f_write_r8,
    CPU.f_read_r8]

theorem f15_srl (s : CPU) (reg : Nat) : (s.srl reg).f &&& 15 = s.f &&& 15 := by
  simp only [CPU.srl, f15_set_f_c, f15_set_f_h, f15_set_f_n, f15_set_f_z, CPU.f_write_r8,
    CPU.f_read_r8]

theorem f15_bitop (s : CPU) (pos reg : Nat) : (s.bit pos reg).f &&& 15 = s.f &&& 15 := by
  simp only [CPU.bit, f15_set_f_h, f15_set_f_n, f15_set_f_z, CPU.f_read_r8]

theorem CPU.f_setop (s : CPU) (pos reg : Nat) : (s.set pos reg).f = s.f := by
  simp only [CPU.set, CPU.f_write_r8, CPU.f_read_r8]

theorem CPU.f_resop (s : CPU) (pos reg : Nat) : (s.res pos reg).f = s.f := by
  simp only [CPU.res, CPU.f_write_r8, CPU.f_read_r8]

theorem f15_cbPrefixed (s : CPU) : s.cbPrefixed.f &&& 15 = s.f &&& 15 := by
  unfold CPU.cbPrefixed
  dsimp only
  repeat' split
  all_goals
    simp only [f15_rlc, f15_rrc, f15_rl, f15_rr, f15_sla, f15_sra, f15_swap, f15_srl,
      f15_bitop, CPU.f_resop, CPU.f_setop, CPU.f_read_d8]

set_option maxHeartbeats 4000000 in
/-- Every implemented instruction leaves the low nibble of F zero. -/
theorem flo_fetch_and_exec (s s2 : CPU) (h : s.f &&& 15 = 0)
    (hf : s.fetch_and_exec = some s2) : s2.f &&& 15 = 0 := by
  have hlow : s.read_d8.2.f &&& 15 = 0 := by rw [CPU.f_read_d8]; exact h
  unfold CPU.fetch_and_exec at hf
  dsimp only at hf
  generalize hop : s.read_d8.1 = op at hf
  generalize hs3 : s.read_d8.2 = s3 at hf hlow
  by_cases hc1 : op = 0x00
  · rw [if_pos hc1] at hf
    injection hf with hh
    subst hh
    rw [CPU.f_nop]
    exact hlow
  rw [if_neg hc1] at hf
  by_cases hc2 : op = 0x01 ∨ op = 0x11 ∨ op = 0x21 ∨ op = 0x31
  · rw [if_pos hc2] at hf
    injection hf with hh
    subst hh
    rw [CPU.f_ld_r16_d16]
    exact hlow
  rw [if_neg hc2] at hf
  by_cases hc3 : op = 0x08
  · rw [if_pos hc3] at hf
    injection hf with hh
    subst hh
    rw [CPU.f_ld_ind_d16_sp]
    exact hlow
  rw [if_neg hc3] at hf
  by_cases hc4 : op = 0xf9
  · rw [if_pos hc4] at hf
    injection hf with hh
    subst hh
    rw [CPU.f_ld_sp_hl]
    exact hlow
  rw [if_neg hc4] at hf
  by_cases hc5 : op = 0x02
  · rw [if_pos hc5] at hf
    injection hf with hh
    subst hh
    rw [CPU.f_ld_ind_bc_a]
    exact hlow
  rw [if_neg hc5] at hf
  by_cases hc6 : op = 0x12
  · rw [if_pos hc6] at hf
    injection hf with hh
    subst hh
    rw [CPU.f_ld_ind_de_a]
    exact hlow
  rw [if_neg hc6] at hf
  by_cases hc7 : op = 0x0a
  · rw [if_pos hc7] at hf
    injection hf with hh
    subst hh
    rw [CPU.f_ld_a_ind_bc]
    exact hlow
  rw [if_neg hc7] at hf
  by_cases hc8 : op = 0x1a
  · rw [if_pos hc8] at hf
    injection hf with hh
    subst hh
    rw [CPU.f_ld_a_ind_de]
    exact hlow
  rw [if_neg hc8] at hf
  by_cases hc9 : op = 0xc5
  · rw [if_pos hc9] at hf
    injection hf with hh
    subst hh
    rw [CPU.f_push_bc]
    exact hlow
  rw [if_neg hc9] at hf
  by_cases hc10 : op = 0xd5
  · rw [if_pos hc10] at hf
    injection hf with hh
    subst hh
    rw [CPU.f_push_de]
    exact hlow
  rw [if_neg hc10] at hf
  by_cases hc11 : op = 0xe5
  · rw [if_pos hc11] at hf
    injection hf with hh
    subst hh
    rw [CPU.f_push_hl]
    exact hlow
  rw [if_neg hc11] at hf
  by_cases hc12 : op = 0xf5
  · rw [if_pos hc12] at hf
    injection hf with hh
    subst hh
    rw [CPU.f_push_af]
    exact hlow
  rw [if_neg hc12] at hf
  by_cases hc13 : op = 0xc1
  · rw [if_pos hc13] at hf
    injection hf with hh
    subst hh
    rw [CPU.f_pop_bc]
    exact hlow
  rw [if_neg hc13] at hf
  by_cases hc14 : op = 0xd1
  · rw [if_pos hc14] at hf
    injection hf with hh
    subst hh
    rw [CPU.f_pop_de]
    exact hlow
  rw [if_neg hc14] at hf
  by_cases hc15 : op = 0xe1
  · rw [if_pos hc15] at hf
    injection hf with hh
    subst hh
    rw [CPU.f_pop_hl]
    exact hlow
  rw [if_neg hc15] at hf
  by_cases hc16 : op = 0xf1
  · rw [if_pos hc16] at hf
    injection hf with hh
    subst hh
    rw [f15_pop_af]
  rw [if_neg hc16] at hf
  by_cases hc17 : op = 0xc2 ∨ op = 0xd2 ∨ op = 0xca ∨ op = 0xda
  · rw [if_pos hc17] at hf
    injection hf with hh
    subst hh
    rw [CPU.f_jp_cc_d8]
    exact hlow
  rw [if_neg hc17] at hf
  by_cases hc18 : op = 0xc3
  · rw [if_pos hc18] at hf
    injection hf with hh
    subst hh
    rw [CPU.f_jp_d16]
    exact hlow
  rw [if_neg hc18] at hf
  by_cases hc19 : op = 0xe9
  · rw [if_pos hc19] at hf
    injection hf with hh
    subst hh
    rw [CPU.f_jp_hl]
    exact hlow
  rw [if_neg hc19] at hf
  by_cases hc20 : op = 0x20 ∨ op = 0x30 ∨ op = 0x28 ∨ op = 0x38
  · rw [if_pos hc20] at hf
    injection hf with hh
    subst hh
    rw [CPU.f_jr_cc_d8]
    exact hlow
  rw [if_neg hc20] at hf
  by_cases hc21 : op = 0x18
  · rw [if_pos hc21] at hf
    injection hf with hh
    subst hh
    rw [CPU.f_jr_d8]
    exact hlow
  rw [if_neg hc21] at hf
  by_cases hc22 : op = 0x07
  · rw [if_pos hc22] at hf
    injection hf with hh
    subst hh
    rw [f15_rlca]
    exact hlow
  rw [if_neg hc22] at hf
  by_cases hc23 : op = 0x17
  · rw [if_pos hc23] at hf
    injection hf with hh
    subst hh
    rw [f15_rla]
    exact hlow
  rw [if_neg hc23] at hf
  by_cases hc24 : op = 0x0f
  · rw [if_pos hc24] at hf
    injection hf with hh
    subst hh
    rw [f15_rrca]
    exact hlow
  rw [if_neg hc24] at hf
  by_cases hc25 : op = 0x1f
  · rw [if_pos hc25] at hf
    injection hf with hh
    subst hh
    rw [f15_rra]
    exact hlow
  rw [if_neg hc25] at hf
  by_cases hc26 : op = 0x09 ∨ op = 0x19 ∨ op = 0x29 ∨ op = 0x39
  · rw [if_pos hc26] at hf
    injection hf with hh
    subst hh
    rw [f15_add_hl_r16]
    exact hlow
  rw [if_neg hc26] at hf
  by_cases hc27 : op = 0xe8
  · rw [if_pos hc27] at hf
    injection hf with hh
    subst hh
    rw [f15_add_sp_d8]
    exact hlow
  rw [if_neg hc27] at hf
  by_cases hc28 : op = 0xf8
  · rw [if_pos hc28] at hf
    injection hf with hh
    subst hh
    rw [f15_ld_hl_sp_d8]
    exact hlow
  rw [if_neg hc28] at hf
  by_cases hc29 : 0x80 ≤ op ∧ op ≤ 0x87
  · rw [if_pos hc29] at hf
    injection hf with hh
    subst hh
    rw [f15_add_r8]
    exact hlow
  rw [if_neg hc29] at hf
  by_cases hc30 : 0x88 ≤ op ∧ op ≤ 0x8f
  · rw [if_pos hc30] at hf
    injection hf with hh
    subst hh
    rw [f15_adc_r8]
    exact hlow
  rw [if_neg hc30] at hf
  by_cases hc31 : 0x90 ≤ op ∧ op ≤ 0x97
  · rw [if_pos hc31] at hf
    injection hf with hh
    subst hh
    rw [f15_sub_r8]
    exact hlow
  rw [if_neg hc31] at hf
  by_cases hc32 : 0x98 ≤ op ∧ op ≤ 0x9f
  · rw [if_pos hc32] at hf
    injection hf with hh
    subst hh
    rw [f15_sbc_r8]
    exact hlow
  rw [if_neg hc32] at hf
  by_cases hc33 : 0xa0 ≤ op ∧ op ≤ 0xa7
  · rw [if_pos hc33] at hf
    injection hf with hh
    subst hh
    rw [f15_and_r8]
    exact hlow
  rw [if_neg hc33] at hf
  by_cases hc34 : 0xb0 ≤ op ∧ op ≤ 0xb7
  · rw [if_pos hc34] at hf
    injection hf with hh
    subst hh
    rw [f15_or_r8]
    exact hlow
  rw [if_neg hc34] at hf
  by_cases hc35 : 0xa8 ≤ op ∧ op ≤ 0xaf
  · rw [if_pos hc35] at hf
    injection hf with hh
    subst hh
    rw [f15_xor_r8]
    exact hlow
  rw [if_neg hc35] at hf
  by_cases hc36 : 0xb8 ≤ op ∧ op ≤ 0xbf
  · rw [if_pos hc36] at hf
    injection hf with hh
    subst hh
    rw [f15_cp_r8]
    exact hlow
  rw [if_neg hc36] at hf
  by_cases hc37 : op = 0x27
  · rw [if_pos hc37] at hf
    injection hf with hh
    subst hh
    rw [f15_daa]
    exact hlow
  rw [if_neg hc37] at hf
  by_cases hc38 : op = 0x2f
  · rw [if_pos hc38] at hf
    injection hf with hh
    subst hh
    rw [f15_cpl]
    exact hlow
  rw [if_neg hc38] at hf
  by_cases hc39 : op = 0x37
  · rw [if_pos hc39] at hf
    injection hf with hh
    subst hh
    rw [f15_scf]
    exact hlow
  rw [if_neg hc39] at hf
  by_cases hc40 : op = 0x3f
  · rw [if_pos hc40] at hf
    injection hf with hh
    subst hh
    rw [f15_ccf]
    exact hlow
  rw [if_neg hc40] at hf
  by_cases hc41 : op = 0xc6
  · rw [if_pos hc41] at hf
    injection hf with hh
    subst hh
    rw [f15_add_d8]
    exact hlow
  rw [if_neg hc41] at hf
  by_cases hc42 : op = 0xd6
  · rw [if_pos hc42] at hf
    injection hf with hh
    subst hh
    rw [f15_sub_d8]
    exact hlow
  rw [if_neg hc42] at hf
  by_cases hc43 : op = 0xe6
  · rw [if_pos hc43] at hf
    injection hf with hh
    subst hh
    rw [f15_and_d8]
    exact hlow
  rw [if_neg hc43] at hf
  by_cases hc44 : op = 0xf6
  · rw [if_pos hc44] at hf
    injection hf with hh
    subst hh
    rw [f15_or_d8]
    exact hlow
  rw [if_neg hc44] at hf
  by_cases hc45 : op = 0xce
  · rw [if_pos hc45] at hf
    injection hf with hh
    subst hh
    rw [f15_adc_d8]
    exact hlow
  rw [if_neg hc45] at hf
  by_cases hc46 : op = 0xde
  · rw [if_pos hc46] at hf
    injection hf with hh
    subst hh
    rw [f15_sbc_d8]
    exact hlow
  rw [if_neg hc46] at hf
  by_cases hc47 : op = 0xee
  · rw [if_pos hc47] at hf
    injection hf with hh
    subst hh
    rw [f15_xor_d8]
    exact hlow
  rw [if_neg hc47] at hf
  by_cases hc48 : op = 0xfe
  · rw [if_pos hc48] at hf
    injection hf with hh
    subst hh
    rw [f15_cp_d8]
    exact hlow
  rw [if_neg hc48] at hf
  by_cases hc49 : op = 0x22
  · rw [if_pos hc49] at hf
    injection hf with hh
    subst hh
    rw [CPU.f_ldi_hl_a]
    exact hlow
  rw [if_neg hc49] at hf
  by_cases hc50 : op = 0x32
  · rw [if_pos hc50] at hf
    injection hf with hh
    subst hh
    rw [CPU.f_ldd_hl_a]
    exact hlow
  rw [if_neg hc50] at hf
  by_cases hc51 : op = 0x2a
  · rw [if_pos hc51] at hf
    injection hf with hh
    subst hh
    rw [CPU.f_ldi_a_hl]
    exact hlow
  rw [if_neg hc51] at hf
  by_cases hc52 : op = 0x3a
  · rw [if_pos hc52] at hf
    injection hf with hh
    subst hh
    rw [CPU.f_ldd_a_hl]
    exact hlow
  rw [if_neg hc52] at hf
  by_cases hc53 : op = 0xe0
  · rw [if_pos hc53] at hf
    injection hf with hh
    subst hh
    rw [CPU.f_ld_io_d8_a]
    exact hlow
  rw [if_neg hc53] at hf
  by_cases hc54 : op = 0xf0
  · rw [if_pos hc54] at hf
    injection hf with hh
    subst hh
    rw [CPU.f_ld_a_io_d8]
    exact hlow
  rw [if_neg hc54] at hf
  by_cases hc55 : op = 0xe2
  · rw [if_pos hc55] at hf
    injection hf with hh
    subst hh
    rw [CPU.f_ld_io_c_a]
    exact hlow
  rw [if_neg hc55] at hf
  by_cases hc56 : op = 0xf2
  · rw [if_pos hc56] at hf
    injection hf with hh
    subst hh
    rw [CPU.f_ld_a_io_c]
    exact hlow
  rw [if_neg hc56] at hf
  by_cases hc57 : op = 0x06 ∨ op = 0x0e ∨ op = 0x16 ∨ op = 0x1e ∨ op = 0x26 ∨ op = 0x2e ∨ op = 0x36 ∨ op = 0x3e
  · rw [if_pos hc57] at hf
    injection hf with hh
    subst hh
    rw [CPU.f_ld_r8_d8]
    exact hlow
  rw [if_neg hc57] at hf
  by_cases hc58 : op = 0x04 ∨ op = 0x0c ∨ op = 0x14 ∨ op = 0x1c ∨ op = 0x24 ∨ op = 0x2c ∨ op = 0x34 ∨ op = 0x3c
  · rw [if_pos hc58] at hf
    injection hf with hh
    subst hh
    rw [f15_inc_r8]
    exact hlow
  rw [if_neg hc58] at hf
  by_cases hc59 : op = 0x05 ∨ op = 0x0d ∨ op = 0x15 ∨ op = 0x1d ∨ op = 0x25 ∨ op = 0x2d ∨ op = 0x35 ∨ op = 0x3d
  · rw [if_pos hc59] at hf
    injection hf with hh
    subst hh
    rw [f15_dec_r8]
    exact hlow
  rw [if_neg hc59] at hf
  by_cases hc60 : (0x40 ≤ op ∧ op ≤ 0x75) ∨ (0x77 ≤ op ∧ op ≤ 0x7f)
  · rw [if_pos hc60] at hf
    injection hf with hh
    subst hh
    rw [CPU.f_ld_r8_r8]
    exact hlow
  rw [if_neg hc60] at hf
  by_cases hc61 : op = 0xea
  · rw [if_pos hc61] at hf
    injection hf with hh
    subst hh
    rw [CPU.f_ld_ind_d16_a]
    exact hlow
  rw [if_neg hc61] at hf
  by_cases hc62 : op = 0xfa
  · rw [if_pos hc62] at hf
    injection hf with hh
    subst hh
    rw [CPU.f_ld_a_ind_d16]
    exact hlow
  rw [if_neg hc62] at hf
  by_cases hc63 : op = 0x03 ∨ op = 0x13 ∨ op = 0x23 ∨ op = 0x33
  · rw [if_pos hc63] at hf
    injection hf with hh
    subst hh
    rw [CPU.f_inc_r16]
    exact hlow
  rw [if_neg hc63] at hf
  by_cases hc64 : op = 0x0b ∨ op = 0x1b ∨ op = 0x2b ∨ op = 0x3b
  · rw [if_pos hc64] at hf
    injection hf with hh
    subst hh
    rw [CPU.f_dec_r16]
    exact hlow
  rw [if_neg hc64] at hf
  by_cases hc65 : op = 0xcd
  · rw [if_pos hc65] at hf
    injection hf with hh
    subst hh
    rw [CPU.f_call_d16]
    exact hlow
  rw [if_neg hc65] at hf
  by_cases hc66 : op = 0xc4 ∨ op = 0xd4 ∨ op = 0xcc ∨ op = 0xdc
  · rw [if_pos hc66] at hf
    injection hf with hh
    subst hh
    rw [CPU.f_call_cc_d16]
    exact hlow
  rw [if_neg hc66] at hf
  by_cases hc67 : op = 0xc9
  · rw [if_pos hc67] at hf
    injection hf with hh
    subst hh
    rw [CPU.f_ret]
    exact hlow
  rw [if_neg hc67] at hf
  by_cases hc68 : op = 0xc0 ∨ op = 0xd0 ∨ op = 0xc8 ∨ op = 0xd8
  · rw [if_pos hc68] at hf
    injection hf with hh
    subst hh
    rw [CPU.f_ret_cc]
    exact hlow
  rw [if_neg hc68] at hf
  by_cases hc69 : op = 0xd9
  · rw [if_pos hc69] at hf
    injection hf with hh
    subst hh
    rw [CPU.f_reti]
    exact hlow
  rw [if_neg hc69] at hf
  by_cases hc70 : op = 0xc7 ∨ op = 0xcf ∨ op = 0xd7 ∨ op = 0xdf ∨ op = 0xe7 ∨ op = 0xef ∨ op = 0xf7 ∨ op = 0xff
  · rw [if_pos hc70] at hf
    injection hf with hh
    subst hh
    rw [CPU.f_rst]
    exact hlow
  rw [if_neg hc70] at hf
  by_cases hc71 : op = 0xf3
  · rw [if_pos hc71] at hf
    injection hf with hh
    subst hh
    rw [CPU.f_di]
    exact hlow
  rw [if_neg hc71] at hf
  by_cases hc72 : op = 0xfb
  · rw [if_pos hc72] at hf
    injection hf with hh
    subst hh
    rw [CPU.f_ei]
    exact hlow
  rw [if_neg hc72] at hf
  by_cases hc73 : op = 0xcb
  · rw [if_pos hc73] at hf
    injection hf with hh
    subst hh
    rw [f15_cbPrefixed]
    exact hlow
  rw [if_neg hc73] at hf
  by_cases hc74 : op = 0x76
  · rw [if_pos hc74] at hf
    injection hf with hh
    subst hh
    rw [CPU.f_halt]
    exact hlow
  rw [if_neg hc74] at hf
  exact Option.noConfusion hf

theorem CPU.f_check_irqs_go :
    ∀ (fuel : Nat) (s : CPU) (i : Nat), (CPU.check_irqs_go s i fuel).f = s.f := by
  intro fuel
  induction fuel with
  | zero => intro s i; rfl
  | succ n ih =>
    intro s i
    unfold CPU.check_irqs_go
    dsimp only
    split
    · exact CPU.f_call_isr s i
    · exact ih s (i + 1)

theorem CPU.f_check_irqs (s : CPU) : s.check_irqs.f = s.f :=
  CPU.f_check_irqs_go 5 s 0

/-- `CPU::step` keeps the low nibble of F zero. -/
theorem flo_step (s : CPU) (n : Nat) (s2 : CPU) (h : s.f &&& 15 = 0)
    (hs : s.step = some (n, s2)) : s2.f &&& 15 = 0 := by
  unfold CPU.step at hs
  dsimp only at hs
  by_cases hh : s.halted = true
  · rw [if_pos hh] at hs
    dsimp only at hs
    by_cases him : s.ime = true
    · rw [if_pos him] at hs
      injection hs with hp
      injection hp with hp1 hp2
      subst hp2
      simp only [CPU.f_check_irqs, h]
    · rw [if_neg him] at hs
      injection hs with hp
      injection hp with hp1 hp2
      subst hp2
      exact h
  · rw [if_neg hh] at hs
    rcases hfe : ({ s with tick := 0 } : CPU).fetch_and_exec with _ | s3
    · rw [hfe] at hs
      exact Option.noConfusion hs
    · rw [hfe] at hs
      dsimp only at hs
      have hflo : s3.f &&& 15 = 0 := flo_fetch_and_exec { s with tick := 0 } s3 h hfe
      by_cases him : s3.ime = true
      · rw [if_pos him] at hs
        injection hs with hp
        injection hp with hp1 hp2
        subst hp2
        simp only [CPU.f_check_irqs, hflo]
      · rw [if_neg him] at hs
        injection hs with hp
        injection hp with hp1 hp2
        subst hp2
        exact hflo

/-- CPU states reachable from the reset state by whole `CPU::step`
instructions (including interrupt dispatch inside `step`). -/
inductive ReachableCPU (cart : Catridge) : CPU → Prop where
  | base : ReachableCPU cart (CPU.new cart)
  | next (s : CPU) (n : Nat) (s2 : CPU) (hs : ReachableCPU cart s)
      (hstep : s.step = some (n, s2)) : ReachableCPU cart s2

/-- C6: starting from the reset state (F = 0), after executing any number
of instructions (every opcode, including CB-prefixed ones, POP AF, and
interrupt dispatch), the low nibble of the F register is zero:
`F &&& 0x0F = 0` holds in every reachable CPU state. -/
theorem C6_f_low_nibble (cart : Catridge) (s : CPU) (h : ReachableCPU cart s) :
    s.f &&& 0x0f = 0 := by
  induction h with
  | base =>
    show (0 : Nat) &&& 0x0f = 0
    decide
  | next s n s2 hs hstep ih => exact flo_step s n s2 ih hstep

/-- Witness for C6: the reset state itself is reachable and satisfies the
invariant. -/
theorem C6_f_low_nibble_witness :
    ReachableCPU Catridge.sample (CPU.new Catridge.sample) ∧
    (CPU.new Catridge.sample).f &&& 0x0f = 0 :=
  ⟨ReachableCPU.base, C6_f_low_nibble Catridge.sample _ ReachableCPU.base⟩

end Gbr
